import Mathlib

/-!
Shallow embedding of the S.C.A.R.I datacenter thermal simulator
(src/src/utils/config.py, src/src/models/cooling.py, src/src/models/server.py,
src/src/models/rack.py, src/src/envs/datacenter_env.py) together with proofs
about the claims of the specification.

Modelling conventions:
* Python floats are modelled as real numbers (`ℝ`); `np.exp` is `Real.exp`
  and float `**` with a non-integer exponent is `Real.rpow`.
* `np.clip(x, lo, hi)` is `clip x lo hi = min hi (max lo x)`.
* Fallible Python code (raised exceptions) is modelled with `Except PyError`.
  Methods that mutate `self` before an exception can escape return the mutated
  state alongside the `Except` value, mirroring that Python object mutations
  performed before a `raise` persist.
* The two numpy random generators are modelled as explicit streams
  `ℕ → ℝ` with a cursor: `npRng` is the per-environment seeded generator
  (`self.np_random`, re-seeded by `reset(seed)`), `globalRng` is the
  process-global `np.random` generator used by `Server.reset`.  A stream value
  is the value actually drawn by the corresponding numpy call.
-/

namespace SCARI

/-- Kinds of Python exceptions that the embedded code can raise. -/
inductive PyError where
  | valueError : PyError
  | attributeError : PyError
  | nameError : PyError
  | indexError : PyError
deriving DecidableEq, Repr

/-- Model of `np.clip(x, lo, hi)`: apply the lower bound, then the upper bound. -/
noncomputable def clip (x lo hi : ℝ) : ℝ := min hi (max lo x)

/-- Model of `np.max` on a 1-d array: raises `ValueError` on an empty array. -/
noncomputable def npMax : List ℝ → Except PyError ℝ
  | [] => .error .valueError
  | x :: xs => .ok (xs.foldl max x)

/-- Model of `np.mean` on a 1-d array (sum divided by length).  The claims only
use it on non-empty arrays; on `[]` numpy returns NaN (with a warning), which
has no counterpart in `ℝ`. -/
noncomputable def npMean (l : List ℝ) : ℝ := l.sum / l.length

/-- Draw `n` consecutive values from a random stream starting at cursor `pos`. -/
def drawN (rng : ℕ → ℝ) (pos n : ℕ) : List ℝ := (List.range n).map fun i => rng (pos + i)

/-- `PhysicsConfig` from src/src/utils/config.py with its default values. -/
structure PhysicsConfig where
  ambient_temp : ℝ := 22.0
  server_thermal_mass : ℝ := 15000
  p_idle : ℝ := 200.0
  p_max : ℝ := 800.0
  r_coeff : ℝ := 0.5
  max_temp : ℝ := 95.0
  min_temp : ℝ := 22.0
  max_temp_change_per_second : ℝ := 5.0

/-- `CoolingConfig` from src/src/utils/config.py with its default values. -/
structure CoolingConfig where
  mode : String := "AIR"
  max_fan_power : ℝ := 1000.0
  max_pump_power : ℝ := 50.0
  base_pump_power : ℝ := 10.0
  air_cooling_capacity : ℝ := 3000.0
  liquid_cooling_capacity : ℝ := 12000.0
  natural_convection : ℝ := 50.0

/-- `RewardConfig` from src/src/utils/config.py with its default values. -/
structure RewardConfig where
  target_temp_min : ℝ := 50.0
  target_temp_max : ℝ := 60.0
  safety_limit : ℝ := 75.0
  critical_limit : ℝ := 85.0
  energy_weight : ℝ := 0.8
  safety_weight : ℝ := 2.0
  stability_weight : ℝ := 0.2
  energy_coefficient : ℝ := 15.0
  thermal_penalty_coefficient : ℝ := 10.0

/-- `EnvironmentConfig` from src/src/utils/config.py with its default values. -/
structure EnvironmentConfig where
  num_servers : ℕ := 10
  max_steps : ℕ := 1000
  num_racks : ℕ := 1
  servers_per_rack : ℕ := 10
  max_load_change_per_step : ℝ := 0.05
  min_initial_load : ℝ := 0.6
  max_initial_load : ℝ := 0.9
  load_std : ℝ := 0.1
  episode_length : ℕ := 1000

/-- Main `Config` container (the `training` section is irrelevant to the
simulation functions and is omitted). -/
structure Config where
  physics : PhysicsConfig := {}
  cooling : CoolingConfig := {}
  reward : RewardConfig := {}
  environment : EnvironmentConfig := {}

/-- `DEFAULT_CONFIG = Config()` from src/src/utils/config.py. -/
def DEFAULT_CONFIG : Config := {}

/-- State of a `CoolingSystem` instance (src/src/models/cooling.py): the mode
string, the cooling configuration and the degradation state. -/
structure CoolingSystem where
  mode : String
  config : CoolingConfig
  efficiency_factor : ℝ
  operating_hours : ℝ

/-- Fan power law of `get_power_consumption` for mode "AIR" (before the
degradation factor); the `clip` reproduces the clamp the sub-system call
performs on its own flow argument. -/
noncomputable def fanPower (cfg : CoolingConfig) (flow : ℝ) : ℝ :=
  let f := clip flow 0 1
  if f < 0.05 then 2.0
  else
    (cfg.max_fan_power * f ^ (3 : ℕ) + 0.05 * cfg.max_fan_power * f) * (1.0 + 0.15 * |0.75 - f|)

/-- Pump power law of `get_power_consumption` for mode "LIQUID" (before the
degradation factor). -/
noncomputable def pumpPower (cfg : CoolingConfig) (flow : ℝ) : ℝ :=
  let f := clip flow 0 1
  if f < 0.1 then cfg.base_pump_power * 0.5
  else cfg.base_pump_power + cfg.max_pump_power * f ^ (2.5 : ℝ) * (1.0 + 0.2 * (f - 0.65) ^ (2 : ℕ))

/-- `CoolingSystem.get_power_consumption`: clamps the flow, dispatches on the
mode string (raising `ValueError` on an unknown mode) and scales the result by
`efficiency_factor`.  The "HYBRID" branch sums the outputs of two freshly
constructed sub-systems (whose own `efficiency_factor` is 1.0), as in the
source. -/
noncomputable def CoolingSystem.get_power_consumption (cs : CoolingSystem) (flow_rate : ℝ) :
    Except PyError ℝ :=
  let f := clip flow_rate 0 1
  if cs.mode = "AIR" then
    .ok (fanPower cs.config f * cs.efficiency_factor)
  else if cs.mode = "LIQUID" then
    .ok (pumpPower cs.config f * cs.efficiency_factor)
  else if cs.mode = "HYBRID" then
    let af := if f < 0.4 then f * 1.5 else 0.3
    let lf := if f < 0.4 then 0.2 else f
    .ok ((fanPower cs.config af + pumpPower cs.config lf) * cs.efficiency_factor)
  else
    .error .valueError

/-- `CoolingSystem.get_cooling_capacity`: clamps the flow, dispatches on the
mode string and returns `0.0` when the mode matches none of the branches
(the source has no `else` raise here, it falls through to `return 0.0`). -/
noncomputable def CoolingSystem.get_cooling_capacity (cs : CoolingSystem)
    (flow_rate ambient_temp server_temp : ℝ) : ℝ :=
  let f := clip flow_rate 0 1
  let delta_t := max 0.1 (server_temp - ambient_temp)
  if cs.mode = "AIR" then
    let passive := cs.config.natural_convection
    let economizer_bonus :=
      if ambient_temp < 18.0 ∧ 0.1 < f then
        1.5 * cs.config.air_cooling_capacity * f * (18.0 - ambient_temp) / 10.0
      else 0.0
    let active := f * cs.config.air_cooling_capacity * (delta_t / 30.0)
    passive + active + economizer_bonus
  else if cs.mode = "LIQUID" then
    let effectiveness := min 1.0 (delta_t / 40.0)
    f * cs.config.liquid_cooling_capacity * effectiveness
  else if cs.mode = "HYBRID" then
    0.3 * f * cs.config.air_cooling_capacity + 0.7 * f * cs.config.liquid_cooling_capacity
  else
    0.0

/-- `CoolingSystem.update_degradation`: accumulate operating hours and recompute
the efficiency factor (1 percent lost per 1000 hours, floored at 0.8). -/
noncomputable def CoolingSystem.update_degradation (cs : CoolingSystem) (dt : ℝ) :
    CoolingSystem :=
  let hours := cs.operating_hours + dt / 3600.0
  { cs with operating_hours := hours,
            efficiency_factor := max 0.8 (1.0 - 0.01 / 1000.0 * hours) }

/-- Per-step statistics dictionary returned by `Server.update_physics`. -/
structure StepStats where
  temp : ℝ
  it_power : ℝ
  cooling_power : ℝ
  heat_generated : ℝ
  heat_removed : ℝ
  health : ℝ
  leakage_power : ℝ

/-- State of a `Server` instance (src/src/models/server.py). -/
structure Server where
  id : ℕ
  config : Config
  temperature : ℝ
  cpu_load : ℝ
  power_draw : ℝ
  cooling_system : CoolingSystem
  temp_history : List ℝ
  power_history : List ℝ
  health : ℝ

/-- `Server.__init__`: starts at ambient temperature, idle power, health 1.0,
with an "AIR" cooling system built from the cooling section of the config. -/
def Server.init (server_id : ℕ) (config : Config) : Server :=
  { id := server_id, config := config,
    temperature := config.physics.ambient_temp,
    cpu_load := 0.0,
    power_draw := config.physics.p_idle,
    cooling_system :=
      { mode := "AIR", config := config.cooling, efficiency_factor := 1.0,
        operating_hours := 0.0 },
    temp_history := [config.physics.ambient_temp],
    power_history := [config.physics.p_idle],
    health := 1.0 }

/-- `Server.update_physics(cpu_load, cooling_action, dt, inlet_temp_offset)`:
clamps the inputs, computes the nonlinear IT power with the
temperature-dependent leakage term, queries the cooling system for capacity
and power cost, integrates the net heat with the rate clamp and the absolute
temperature clamp, and applies the Arrhenius aging decrement to health. -/
noncomputable def Server.update_physics (s : Server)
    (cpu_load cooling_action : ℝ) (dt : ℝ := 1.0) (inlet_temp_offset : ℝ := 0.0) :
    Except PyError (Server × StepStats) :=
  let u := clip cpu_load 0 1
  let a := clip cooling_action 0 1
  let dynamic_factor := if 0 < u then 0.3 + 0.7 * u ^ (1.8 : ℝ) else 0.3
  let p_max := s.config.physics.p_max
  let it_dynamic_power := p_max * dynamic_factor
  let t_ref : ℝ := 45.0
  let k_leak : ℝ := 0.03
  let base_leakage := p_max * 0.05
  let leakage_power := base_leakage * Real.exp (k_leak * (s.temperature - t_ref))
  let power_draw := it_dynamic_power + leakage_power
  let heat_generated := power_draw
  let effective_ambient := s.config.physics.ambient_temp + inlet_temp_offset
  let heat_removed := s.cooling_system.get_cooling_capacity a effective_ambient s.temperature
  match s.cooling_system.get_power_consumption a with
  | .error e => .error e
  | .ok cooling_cost =>
    let net_heat := heat_generated - heat_removed
    let max_delta := s.config.physics.max_temp_change_per_second
    let delta_temp := clip (net_heat * dt / s.config.physics.server_thermal_mass) (-max_delta) max_delta
    let t1 := s.temperature + delta_temp
    let aging_factor := Real.exp (8000 * (1 / (273.15 + 40.0) - 1 / (273.15 + t1)))
    let health := max 0.0 (s.health - 0.000002 * aging_factor * dt)
    let t2 := clip t1 s.config.physics.min_temp s.config.physics.max_temp
    let s' := { s with temperature := t2, power_draw := power_draw, health := health,
                       temp_history := s.temp_history ++ [t2],
                       power_history := s.power_history ++ [power_draw + cooling_cost] }
    .ok (s', { temp := t2, it_power := power_draw, cooling_power := cooling_cost,
               heat_generated := heat_generated, heat_removed := heat_removed,
               health := health, leakage_power := leakage_power })

/-- `Server.reset`: the new temperature is the value drawn by
`np.random.uniform(40.0, 50.0)` from the PROCESS-GLOBAL numpy generator (not
the environment's seeded `self.np_random`); load goes to 0, power to idle,
health to 1.0.  `draw` is that global draw. -/
def Server.reset (s : Server) (draw : ℝ) : Server :=
  { s with temperature := draw, cpu_load := 0.0,
           power_draw := s.config.physics.p_idle, health := 1.0,
           temp_history := [draw], power_history := [s.config.physics.p_idle] }

/-- State of a `Rack` instance (src/src/models/rack.py). -/
structure Rack where
  id : ℕ
  num_servers : ℕ
  servers : List Server
  config : Config
  last_cooling_power : ℝ

/-- `Rack.__init__`. -/
def Rack.init (rack_id num_servers : ℕ) (config : Config) : Rack :=
  { id := rack_id, num_servers := num_servers,
    servers := (List.range num_servers).map fun i => Server.init i config,
    config := config, last_cooling_power := 0.0 }

/-- Loop body of `Rack.update`: update the servers one by one, accumulating the
stats list and the total cooling power.  A raise from a server update leaves
the earlier (already mutated) servers mutated, as in Python. -/
noncomputable def updateServers :
    List Server → List ℝ → List ℝ → List Server × Except PyError (List StepStats × ℝ)
  | [], _, _ => ([], .ok ([], 0.0))
  | s :: ss, l :: ls, a :: as_ =>
    match s.update_physics l a 1.0 0.0 with
    | .error e => (s :: ss, .error e)
    | .ok (s', st) =>
      match updateServers ss ls as_ with
      | (ss', .error e) => (s' :: ss', .error e)
      | (ss', .ok (sts, tot)) => (s' :: ss', .ok (st :: sts, st.cooling_power + tot))
  | ss, _, _ => (ss, .error .indexError)

/-- `Rack.update(loads, actions)`: clamp both vectors to [0,1], raise
`ValueError` when either length differs from the configured server count
(before touching any server), otherwise update every server once and record
the summed cooling power.  The mutated rack is returned alongside the result. -/
noncomputable def Rack.update (r : Rack) (loads actions : List ℝ) :
    Rack × Except PyError (List StepStats) :=
  let loads := loads.map fun x => clip x 0 1
  let actions := actions.map fun x => clip x 0 1
  if loads.length ≠ r.num_servers ∨ actions.length ≠ r.num_servers then
    (r, .error .valueError)
  else
    match updateServers r.servers loads actions with
    | (servers', .error e) => ({ r with servers := servers' }, .error e)
    | (servers', .ok (stats, total)) =>
      ({ r with servers := servers', last_cooling_power := total }, .ok stats)

/-- `Rack.get_total_power`: summed server power draws plus the last recorded
cooling power. -/
noncomputable def Rack.get_total_power (r : Rack) : ℝ :=
  (r.servers.map Server.power_draw).sum + r.last_cooling_power

/-- `Rack.get_temperatures`. -/
def Rack.get_temperatures (r : Rack) : List ℝ := r.servers.map Server.temperature

/-- `Rack.get_max_temperature`: maximum server temperature, ambient for an
empty rack. -/
noncomputable def Rack.get_max_temperature (r : Rack) : ℝ :=
  match r.get_temperatures with
  | [] => r.config.physics.ambient_temp
  | t :: ts => ts.foldl max t

/-- `Rack.get_avg_temperature`: mean server temperature, ambient for an empty
rack. -/
noncomputable def Rack.get_avg_temperature (r : Rack) : ℝ :=
  match r.get_temperatures with
  | [] => r.config.physics.ambient_temp
  | t :: ts => npMean (t :: ts)

/-- Modelled from the spec: `info` must include "average health ([0,1])", the
mean of the servers' health values.  `DataCenterEnv.step` calls
`self.rack.get_avg_health()`, but no such method exists anywhere in the
repository (the `Rack` class defines no `get_avg_health`), so the call raises
`AttributeError`; this definition models the missing method from the spec's
words. -/
noncomputable def Rack.get_avg_health (r : Rack) : ℝ :=
  npMean (r.servers.map Server.health)

/-- The method names the `Rack` class actually defines in
src/src/models/rack.py. -/
def Rack.methodNames : List String :=
  ["__init__", "update", "get_total_power", "get_temperatures",
   "get_max_temperature", "get_avg_temperature", "get_avg_cooling_power",
   "reset", "__repr__"]

/-- `Rack.reset`: reset every server (each consuming one draw, in order, from
the process-global generator) and zero the cooling-power accumulator. -/
def Rack.reset (r : Rack) (globalRng : ℕ → ℝ) (pos : ℕ) : Rack :=
  { r with
    servers := (List.zipWith (fun s i => s.reset (globalRng (pos + i)))
      r.servers (List.range r.servers.length)),
    last_cooling_power := 0.0 }


/-- Return tuple of `DataCenterEnv.step` (observation, reward, terminated,
truncated, info). -/
structure StepInfo where
  total_power : ℝ
  max_temp : ℝ
  avg_temp : ℝ
  avg_health : ℝ
  it_power : ℝ
  cooling_power : ℝ
  stats : List StepStats

/-- The 5-tuple returned by a successful `DataCenterEnv.step` call. -/
structure StepResult where
  obs : List ℝ
  reward : ℝ
  terminated : Bool
  truncated : Bool
  info : StepInfo

/-- State of a `DataCenterEnv` instance (src/src/envs/datacenter_env.py).
`last_action` is the `self.last_action` attribute set lazily inside
`_calculate_reward` (`none` models both "attribute absent" and "None").
`npRng`/`npPos` model the seeded `self.np_random` generator, and
`globalRng`/`globalPos` the process-global `np.random` generator consumed by
`Server.reset`. -/
@[ext]
structure DataCenterEnv where
  config : Config
  num_servers : ℕ
  rack : Rack
  current_loads : List ℝ
  step_count : ℕ
  episode_count : ℕ
  prev_temps : Option (List ℝ)
  episode_rewards : List ℝ
  episode_temps : List ℝ
  episode_powers : List ℝ
  last_action : Option (List ℝ)
  npRng : ℕ → ℝ
  npPos : ℕ
  globalRng : ℕ → ℝ
  globalPos : ℕ

/-- `DataCenterEnv.__init__`: the server count is racks times servers per rack,
the rack is freshly built, loads start at zero, `prev_temps` is `None` and
`last_action` does not exist yet.  `globalPos` is the cursor of the
process-global generator at construction time. -/
def DataCenterEnv.init (config : Config) (npRng globalRng : ℕ → ℝ) (globalPos : ℕ) :
    DataCenterEnv :=
  let n := config.environment.num_racks * config.environment.servers_per_rack
  { config := config, num_servers := n, rack := Rack.init 0 n config,
    current_loads := List.replicate n 0.0, step_count := 0, episode_count := 0,
    prev_temps := none, episode_rewards := [], episode_temps := [],
    episode_powers := [], last_action := none,
    npRng := npRng, npPos := 0, globalRng := globalRng, globalPos := globalPos }

/-- `DataCenterEnv._get_obs`: concatenation of normalized (noisy) temperatures,
raw loads, raw health values and bounded temperature trends.  When
`prev_temps` is `None` the source leaves `temps_for_obs` unassigned and the
later read raises `NameError`; no draw is consumed and no field mutated on
that path. -/
noncomputable def DataCenterEnv._get_obs (e : DataCenterEnv) :
    DataCenterEnv × Except PyError (List ℝ) :=
  let temps := e.rack.get_temperatures
  let loads := e.current_loads
  let health := e.rack.servers.map Server.health
  match e.prev_temps with
  | none => (e, .error .nameError)
  | some prev =>
    let obs_noise := drawN e.npRng e.npPos e.num_servers
    let noisy_temps := List.zipWith (fun t x => t + x) temps obs_noise
    let trends := (List.zipWith (fun nt p => (nt - p) / 10.0) noisy_temps prev).map
      fun t => clip (t * 0.5 + 0.5) 0 1
    let temps_for_obs := noisy_temps
    let t_min := e.config.physics.min_temp
    let t_max := e.config.physics.max_temp
    let norm_temps := temps_for_obs.map
      fun t => clip ((t - t_min) / (t_max - t_min + 1e-6)) 0 1
    let e' := { e with prev_temps := some temps_for_obs,
                       npPos := e.npPos + e.num_servers }
    (e', .ok (norm_temps ++ loads ++ health ++ trends))

/-- `DataCenterEnv._calculate_reward(stats, actions)`: the reward formula of
src/src/envs/datacenter_env.py lines 175-275.  Every weight and threshold in
it is a literal constant of the function body; from the configuration it reads
only `physics.max_temp` and `physics.p_max` (and the server count).  Returns
the reward and the new value of `self.last_action` (the early catastrophic
return skips the `last_action` update).  `np.max` on the temperatures raises
on an empty stats list. -/
noncomputable def DataCenterEnv._calculate_reward (cfg : Config) (num_servers : ℕ)
    (stats : List StepStats) (actions : List ℝ) (last_action : Option (List ℝ)) :
    Except PyError (ℝ × Option (List ℝ)) :=
  let it_power := (stats.map StepStats.it_power).sum
  let cooling_power := (stats.map StepStats.cooling_power).sum
  let total_power := it_power + cooling_power
  let _avg_temp := npMean (stats.map StepStats.temp)
  match npMax (stats.map StepStats.temp) with
  | .error e => .error e
  | .ok max_temp =>
    let avg_health := npMean (stats.map StepStats.health)
    let pue := total_power / (it_power + 1e-6)
    let soft_thermal_reward :=
      if 45.0 ≤ max_temp ∧ max_temp ≤ 55.0 then 5.0 * (1.0 - |max_temp - 50.0| / 10.0)
      else if max_temp < 45.0 then 2.0
      else 0.0
    let warning_penalty :=
      if 55.0 < max_temp ∧ max_temp < 60.0 then 20.0 * (max_temp - 55.0) ^ (2 : ℕ)
      else 0.0
    let critical_penalty :=
      if 60.0 ≤ max_temp then 300.0 + 100.0 * (max_temp - 60.0) else 0.0
    if cfg.physics.max_temp ≤ max_temp then .ok (-2000.0, last_action)
    else
      let pue_reward :=
        if max_temp ≤ 55.0 then 3.0 * (max 0 (1.35 - pue) * 20.0) else 0.0
      let health_penalty :=
        if avg_health < 0.95 then 50.0 * (1.0 - avg_health) else 0.0
      let action_jitter_penalty :=
        match last_action with
        | some la => 2.0 * npMean (List.zipWith (fun x y => |x - y|) actions la)
        | none => 0.0
      let demand_limit := cfg.physics.p_max * (num_servers : ℝ) * 0.8
      let demand_penalty :=
        if demand_limit < total_power then 0.01 * (total_power - demand_limit) else 0.0
      let it_load_mean := npMean (stats.map StepStats.it_power) / cfg.physics.p_max
      let neglect_penalty :=
        if 0.75 < it_load_mean ∧ npMean actions < 0.20 then 15.0 else 0.0
      .ok (soft_thermal_reward + pue_reward - warning_penalty - critical_penalty
            - health_penalty - action_jitter_penalty - demand_penalty - neglect_penalty,
           some actions)

/-- `DataCenterEnv.step(action)`: clamp the action, evolve the loads by the
seeded random walk, update the rack, compute the reward, the `terminated` and
`truncated` flags (from the PRE-increment step counter), append the episode
bookkeeping, increment the counter, build the info map and return the new
observation.  State mutated before a raise persists, as in Python. -/
noncomputable def DataCenterEnv.step (e : DataCenterEnv) (action : List ℝ) :
    DataCenterEnv × Except PyError StepResult :=
  let action := action.map fun a => clip a 0 1
  let load_noise := drawN e.npRng e.npPos e.num_servers
  let loads := List.zipWith (fun l x => clip (l + x) 0 1) e.current_loads load_noise
  let e1 := { e with current_loads := loads, npPos := e.npPos + e.num_servers }
  match e1.rack.update loads action with
  | (rack', .error err) => ({ e1 with rack := rack' }, .error err)
  | (rack', .ok stats) =>
    let e2 := { e1 with rack := rack' }
    match DataCenterEnv._calculate_reward e2.config e2.num_servers stats action e2.last_action with
    | .error err => (e2, .error err)
    | .ok (reward, la') =>
      let e3 := { e2 with last_action := la' }
      let temps := e3.rack.get_temperatures
      match npMax temps with
      | .error err => (e3, .error err)
      | .ok max_temp =>
        let terminated := decide (e3.config.physics.max_temp ≤ max_temp)
        let truncated := decide ((e3.config.environment.max_steps : ℕ) ≤ e3.step_count)
        let e4 := { e3 with
          episode_rewards := e3.episode_rewards ++ [reward],
          episode_temps := e3.episode_temps ++ [max_temp],
          episode_powers := e3.episode_powers ++ [e3.rack.get_total_power],
          step_count := e3.step_count + 1 }
        let info : StepInfo :=
          { total_power := e4.rack.get_total_power, max_temp := max_temp,
            avg_temp := e4.rack.get_avg_temperature,
            avg_health := e4.rack.get_avg_health,
            it_power := (stats.map StepStats.it_power).sum,
            cooling_power := (stats.map StepStats.cooling_power).sum,
            stats := stats }
        match e4._get_obs with
        | (e5, .error err) => (e5, .error err)
        | (e5, .ok o) =>
          (e5, .ok { obs := o, reward := reward, terminated := terminated,
                     truncated := truncated, info := info })

/-- `DataCenterEnv.reset(seed)`: re-seed the per-environment generator (the
stream `seedStream` is `self.np_random` right after seeding), reset the rack
(consuming one process-global draw per server), redraw the initial loads from
the seeded stream, zero the step counter, clear the episode bookkeeping and
return the initial observation.  `last_action` is NOT touched. -/
noncomputable def DataCenterEnv.reset (e : DataCenterEnv) (seedStream : ℕ → ℝ) :
    DataCenterEnv × Except PyError (List ℝ) :=
  let rack' := e.rack.reset e.globalRng e.globalPos
  let e1 := { e with
    rack := rack',
    prev_temps := some rack'.get_temperatures,
    current_loads := drawN seedStream 0 e.num_servers,
    step_count := 0,
    episode_count := e.episode_count + 1,
    episode_rewards := [], episode_temps := [], episode_powers := [],
    npRng := seedStream, npPos := e.num_servers,
    globalPos := e.globalPos + e.rack.servers.length }
  e1._get_obs

/-- Drive an environment through a list of actions, collecting the reward of
each successful step; a raised exception ends the run with that error. -/
noncomputable def runRewards (e : DataCenterEnv) : List (List ℝ) → List (Except PyError ℝ)
  | [] => []
  | a :: rest =>
    match e.step a with
    | (e', .ok r) => .ok r.reward :: runRewards e' rest
    | (_, .error err) => [.error err]

/-- Result of the `i`-th call to `step` (0-indexed) when the environment is
driven by the action stream `acts`; once a call raises, the error persists. -/
noncomputable def iterateSteps (e : DataCenterEnv) (acts : ℕ → List ℝ) :
    ℕ → DataCenterEnv × Except PyError StepResult
  | 0 => e.step (acts 0)
  | i + 1 =>
    match iterateSteps e acts i with
    | (e', .ok _) => e'.step (acts (i + 1))
    | (e', .error err) => (e', .error err)


/-! ### Basic lemmas about the numeric helpers -/

theorem clip_le_hi (x lo hi : ℝ) : clip x lo hi ≤ hi := min_le_left _ _

theorem lo_le_clip (x lo hi : ℝ) (h : lo ≤ hi) : lo ≤ clip x lo hi :=
  le_min h (le_max_left _ _)

theorem clip_eq_self (x lo hi : ℝ) (h1 : lo ≤ x) (h2 : x ≤ hi) : clip x lo hi = x := by
  unfold clip
  rw [max_eq_right h1, min_eq_right h2]

theorem clip_le_max (x lo hi : ℝ) : clip x lo hi ≤ max lo x := min_le_right _ _

theorem clip_idem01 (x : ℝ) : clip (clip x 0 1) 0 1 = clip x 0 1 :=
  clip_eq_self _ _ _ (lo_le_clip _ _ _ zero_le_one) (clip_le_hi _ _ _)

/-! ### C1: the `info` dictionary of `step` and the missing `Rack.get_avg_health` -/

/-- C1. `DataCenterEnv.step` builds its `info` dictionary by calling
`self.rack.get_avg_health()`, but the `Rack` class of src/src/models/rack.py
defines no method of that name (this theorem records the complete method
table), so every completed physics step ends in an `AttributeError` instead of
returning the advertised 5-tuple: the claim is right about the intent and the
code is wrong. -/
theorem c1_get_avg_health_missing : "get_avg_health" ∉ Rack.methodNames := by
  decide

/-! ### C6: the reward weights are hardcoded, not configuration -/

/-- C6 counterexample. The claim asserts that for every reward parameter two
configurations differing only in that parameter can produce different step
rewards.  For the `energy_weight` parameter this is false: the two
configurations below differ exactly in `reward.energy_weight`, yet
`_calculate_reward` returns identical results on every input, because the
function reads no field of the reward section at all. -/
theorem c6_counterexample :
    DEFAULT_CONFIG.reward.energy_weight ≠
      ({ reward := { energy_weight := 99.0 } } : Config).reward.energy_weight ∧
    ∀ (n : ℕ) (stats : List StepStats) (a : List ℝ) (la : Option (List ℝ)),
      DataCenterEnv._calculate_reward DEFAULT_CONFIG n stats a la =
        DataCenterEnv._calculate_reward ({ reward := { energy_weight := 99.0 } } : Config)
          n stats a la := by
  constructor
  · show (0.8 : ℝ) ≠ 99.0
    norm_num
  · intro n stats a la
    rfl

/-- C6 amended. Every weight and threshold of the per-step reward is a literal
constant in `_calculate_reward`; the only configuration data the reward reads
is the physics section (`max_temp`, `p_max`) and the server count.  Hence any
two configurations with the same physics section produce identical rewards on
all inputs, whatever their reward sections contain. -/
theorem c6_reward_ignores_reward_config (c1 c2 : Config) (n : ℕ)
    (stats : List StepStats) (a : List ℝ) (la : Option (List ℝ))
    (hphys : c1.physics = c2.physics) :
    DataCenterEnv._calculate_reward c1 n stats a la =
      DataCenterEnv._calculate_reward c2 n stats a la := by
  unfold DataCenterEnv._calculate_reward
  rw [hphys]

/-- C6 witness: the amended theorem applied at two concrete configurations
that differ in their whole reward section. -/
theorem c6_reward_ignores_reward_config_witness :
    DataCenterEnv._calculate_reward
        ({ reward := { energy_weight := 1.0 } } : Config) 1
        [{ temp := 50.0, it_power := 400.0, cooling_power := 10.0,
           heat_generated := 410.0, heat_removed := 100.0, health := 1.0,
           leakage_power := 40.0 }] [0.5] none =
      DataCenterEnv._calculate_reward
        ({ reward := { energy_weight := 2.0 } } : Config) 1
        [{ temp := 50.0, it_power := 400.0, cooling_power := 10.0,
           heat_generated := 410.0, heat_removed := 100.0, health := 1.0,
           leakage_power := 40.0 }] [0.5] none :=
  c6_reward_ignores_reward_config _ _ 1 _ _ none rfl

/-! ### C7: unknown cooling modes -/

/-- C7 counterexample. The claim says an unrecognized mode makes
`get_cooling_capacity` fail with a configuration error.  In the source the
method has no raise for this case; it falls through and returns `0.0`:
a silent default instead of an error. -/
theorem c7_counterexample :
    CoolingSystem.get_cooling_capacity
      { mode := "FOO", config := {}, efficiency_factor := 1.0, operating_hours := 0.0 }
      0.5 22.0 50.0 = 0.0 := by
  unfold CoolingSystem.get_cooling_capacity
  rw [if_neg (by decide), if_neg (by decide), if_neg (by decide)]

/-- C7 amended. For a mode outside AIR/LIQUID/HYBRID, `get_power_consumption`
raises `ValueError` (the source's ConfigurationError behaviour) while
`get_cooling_capacity` silently returns `0.0`; and for every cooling system
both entry points factor through the clamp of the flow to `[0,1]`
(out-of-range flow is clipped, never rejected). -/
theorem c7_unknown_mode (cs : CoolingSystem) (flow a s : ℝ)
    (h1 : cs.mode ≠ "AIR") (h2 : cs.mode ≠ "LIQUID") (h3 : cs.mode ≠ "HYBRID") :
    cs.get_power_consumption flow = .error .valueError ∧
    cs.get_cooling_capacity flow a s = 0.0 ∧
    (∀ (cs' : CoolingSystem) (g a' s' : ℝ),
      cs'.get_power_consumption g = cs'.get_power_consumption (clip g 0 1) ∧
      cs'.get_cooling_capacity g a' s' = cs'.get_cooling_capacity (clip g 0 1) a' s') := by
  refine ⟨?_, ?_, ?_⟩
  · unfold CoolingSystem.get_power_consumption
    rw [if_neg h1, if_neg h2, if_neg h3]
  · unfold CoolingSystem.get_cooling_capacity
    rw [if_neg h1, if_neg h2, if_neg h3]
  · intro cs' g a' s'
    constructor
    · unfold CoolingSystem.get_power_consumption
      rw [clip_idem01]
    · unfold CoolingSystem.get_cooling_capacity
      rw [clip_idem01]

/-- C7 witness: the amended theorem at the concrete unknown mode "FOO" with an
out-of-range flow. -/
theorem c7_unknown_mode_witness :
    CoolingSystem.get_power_consumption
        { mode := "FOO", config := {}, efficiency_factor := 1.0, operating_hours := 0.0 }
        2.5 = .error .valueError ∧
    CoolingSystem.get_cooling_capacity
        { mode := "FOO", config := {}, efficiency_factor := 1.0, operating_hours := 0.0 }
        2.5 22.0 50.0 = 0.0 ∧
    (∀ (cs' : CoolingSystem) (g a' s' : ℝ),
      cs'.get_power_consumption g = cs'.get_power_consumption (clip g 0 1) ∧
      cs'.get_cooling_capacity g a' s' = cs'.get_cooling_capacity (clip g 0 1) a' s') :=
  c7_unknown_mode _ 2.5 22.0 50.0 (by decide) (by decide) (by decide)


/-! ### The single-step behaviour of `Server.update_physics` -/

/-- `Server.update_physics` on an ok `get_power_consumption` result (which any
mode-"AIR" cooling system produces) never touches the identity, configuration
or cooling system of the server. -/
theorem update_physics_preserves (s : Server) (l a dt off : ℝ) (s' : Server)
    (st : StepStats) (h : s.update_physics l a dt off = .ok (s', st)) :
    s'.cooling_system = s.cooling_system ∧ s'.config = s.config ∧
    s'.id = s.id ∧ s'.cpu_load = s.cpu_load := by
  unfold Server.update_physics at h
  cases hpc : s.cooling_system.get_power_consumption (clip a 0 1) with
  | error e =>
    simp only [hpc] at h
    exact Except.noConfusion h
  | ok c =>
    simp only [hpc] at h
    injection h with h1
    injection h1 with hA hB
    rw [← hA]
    exact ⟨rfl, rfl, rfl, rfl⟩

/-- Full success specification of `Server.update_physics` for the "AIR"
cooling mode every rack-built server has: the call succeeds, the new
temperature is the rate-clamped then range-clamped integration of the net
heat, the stats mirror the new temperature and health, health stays
nonnegative and (for a nonnegative time step) never increases. -/
theorem update_physics_spec (s : Server) (l a dt off : ℝ)
    (hmode : s.cooling_system.mode = "AIR") :
    ∃ (s' : Server) (st : StepStats), s.update_physics l a dt off = .ok (s', st) ∧
      s'.config = s.config ∧ s'.cooling_system = s.cooling_system ∧
      s'.id = s.id ∧ s'.cpu_load = s.cpu_load ∧
      st.temp = s'.temperature ∧ st.health = s'.health ∧
      (∃ d, d ≤ s.config.physics.max_temp_change_per_second ∧
        s'.temperature =
          clip (s.temperature + d) s.config.physics.min_temp s.config.physics.max_temp) ∧
      0 ≤ s'.health ∧
      (0 ≤ dt → 0 ≤ s.health → s'.health ≤ s.health) := by
  have hpc : s.cooling_system.get_power_consumption (clip a 0 1) =
      .ok (fanPower s.cooling_system.config (clip (clip a 0 1) 0 1) *
        s.cooling_system.efficiency_factor) := by
    unfold CoolingSystem.get_power_consumption
    rw [if_pos hmode]
  unfold Server.update_physics
  simp only [hpc]
  refine ⟨_, _, rfl, rfl, rfl, rfl, rfl, rfl, rfl, ⟨_, clip_le_hi _ _ _, rfl⟩, ?_, ?_⟩
  · exact le_max_of_le_left (by norm_num)
  · intro hdt hh
    exact max_le (le_trans (by norm_num) hh)
      (sub_le_self _ (mul_nonneg (mul_nonneg (by norm_num) (Real.exp_pos _).le) hdt))

/-! ### C9: cooling degradation -/

/-- `fanPower` is nonnegative when the configured fan power is. -/
theorem fanPower_nonneg (cfg : CoolingConfig) (flow : ℝ)
    (hfan : 0 ≤ cfg.max_fan_power) : 0 ≤ fanPower cfg flow := by
  unfold fanPower
  have h0 : (0 : ℝ) ≤ clip flow 0 1 := lo_le_clip _ _ _ zero_le_one
  by_cases h : clip flow 0 1 < 0.05
  · simp only [h, if_true]
    norm_num
  · simp only [h, if_false]
    have h1 : (0 : ℝ) ≤ cfg.max_fan_power * clip flow 0 1 ^ (3 : ℕ)
        + 0.05 * cfg.max_fan_power * clip flow 0 1 := by
      have := pow_nonneg h0 3
      positivity
    have h2 : (0 : ℝ) ≤ 1.0 + 0.15 * |0.75 - clip flow 0 1| := by positivity
    exact mul_nonneg h1 h2

/-- C9 counterexample. Accumulating operating hours LOWERS the reported power
for a fixed flow, contradicting the claimed monotone non-decrease: a fresh AIR
system at flow 0.5 reports 155.625 W, and after `update_degradation` has
accumulated 10000 operating hours (efficiency factor 0.9) the same flow
reports 140.0625 W — the source multiplies by `efficiency_factor`, not by
`(2 - efficiency_factor)`. -/
theorem c9_counterexample :
    (CoolingSystem.update_degradation
        { mode := "AIR", config := {}, efficiency_factor := 1.0, operating_hours := 0.0 }
        36000000.0).operating_hours = 10000.0 ∧
    CoolingSystem.get_power_consumption
        { mode := "AIR", config := {}, efficiency_factor := 1.0, operating_hours := 0.0 }
        0.5 = .ok 155.625 ∧
    CoolingSystem.get_power_consumption
      (CoolingSystem.update_degradation
        { mode := "AIR", config := {}, efficiency_factor := 1.0, operating_hours := 0.0 }
        36000000.0) 0.5 = .ok 140.0625 ∧
    (140.0625 : ℝ) < 155.625 := by
  have hclip : clip (0.5 : ℝ) 0 1 = 0.5 := clip_eq_self _ _ _ (by norm_num) (by norm_num)
  have habs : |(0.75 : ℝ) - 0.5| = 0.25 := by
    rw [abs_of_nonneg (by norm_num)]
    norm_num
  have hfan : fanPower ({} : CoolingConfig) 0.5 = 155.625 := by
    unfold fanPower
    rw [hclip, if_neg (by norm_num), habs]
    norm_num
  refine ⟨?_, ?_, ?_, by norm_num⟩
  · unfold CoolingSystem.update_degradation
    norm_num
  · unfold CoolingSystem.get_power_consumption
    rw [if_pos rfl, hclip, hfan]
    norm_num
  · have heff : (CoolingSystem.update_degradation
        { mode := "AIR", config := {}, efficiency_factor := 1.0, operating_hours := 0.0 }
        36000000.0).efficiency_factor = 0.9 := by
      show max 0.8 (1.0 - 0.01 / 1000.0 * (0.0 + 36000000.0 / 3600.0)) = 0.9
      rw [show (1.0 : ℝ) - 0.01 / 1000.0 * (0.0 + 36000000.0 / 3600.0) = 0.9 by norm_num]
      exact max_eq_right (by norm_num)
    have hmode2 : (CoolingSystem.update_degradation
        { mode := "AIR", config := {}, efficiency_factor := 1.0, operating_hours := 0.0 }
        36000000.0).mode = "AIR" := rfl
    have hconf2 : (CoolingSystem.update_degradation
        { mode := "AIR", config := {}, efficiency_factor := 1.0, operating_hours := 0.0 }
        36000000.0).config = ({} : CoolingConfig) := rfl
    unfold CoolingSystem.get_power_consumption
    rw [hmode2, if_pos rfl, hconf2, hclip, hfan, heff]
    norm_num

/-- C9 amended. The decay law itself matches the claim (1 percent per 1000
accumulated hours, floored at minimum efficiency 0.8), but (a) every power
output is scaled by `efficiency_factor` itself, not by `(2 − efficiencyFactor)`,
so for a fixed flow the reported power is monotonically NON-INCREASING as
operating hours accumulate, and (b) `Server.update_physics` never touches the
cooling system state, so in the simulation loop the operating hours in fact
never advance (and are also never reset mid-episode).  Stated for the AIR mode
every rack-built server uses. -/
theorem c9_degradation (cs : CoolingSystem) (dt flow : ℝ)
    (hmode : cs.mode = "AIR")
    (hcons : cs.efficiency_factor = max 0.8 (1.0 - 0.01 / 1000.0 * cs.operating_hours))
    (hdt : 0 ≤ dt)
    (hfan : 0 ≤ cs.config.max_fan_power) :
    (cs.update_degradation dt).operating_hours = cs.operating_hours + dt / 3600.0 ∧
    (cs.update_degradation dt).efficiency_factor =
      max 0.8 (1.0 - 0.01 / 1000.0 * (cs.operating_hours + dt / 3600.0)) ∧
    0.8 ≤ (cs.update_degradation dt).efficiency_factor ∧
    (∃ p p', cs.get_power_consumption flow = .ok p ∧
      (cs.update_degradation dt).get_power_consumption flow = .ok p' ∧ p' ≤ p) ∧
    (∀ (sv : Server) (l a d o : ℝ) (sv' : Server) (st : StepStats),
      sv.update_physics l a d o = .ok (sv', st) → sv'.cooling_system = sv.cooling_system) := by
  have hhours : (cs.update_degradation dt).operating_hours = cs.operating_hours + dt / 3600.0 := by
    unfold CoolingSystem.update_degradation
    rfl
  have heff : (cs.update_degradation dt).efficiency_factor =
      max 0.8 (1.0 - 0.01 / 1000.0 * (cs.operating_hours + dt / 3600.0)) := by
    unfold CoolingSystem.update_degradation
    rfl
  have hmode' : (cs.update_degradation dt).mode = cs.mode := by
    unfold CoolingSystem.update_degradation
    rfl
  have hconf : (cs.update_degradation dt).config = cs.config := by
    unfold CoolingSystem.update_degradation
    rfl
  have hle : (cs.update_degradation dt).efficiency_factor ≤ cs.efficiency_factor := by
    rw [heff, hcons]
    apply max_le_max le_rfl
    have h0 : (0 : ℝ) ≤ 0.01 / 1000.0 * (dt / 3600.0) := by positivity
    nlinarith
  refine ⟨hhours, heff, by rw [heff]; exact le_max_left _ _, ?_, ?_⟩
  · refine ⟨fanPower cs.config (clip flow 0 1) * cs.efficiency_factor,
      fanPower cs.config (clip flow 0 1) * (cs.update_degradation dt).efficiency_factor,
      ?_, ?_, ?_⟩
    · unfold CoolingSystem.get_power_consumption
      rw [if_pos hmode]
    · unfold CoolingSystem.get_power_consumption
      rw [if_pos (by rw [hmode']; exact hmode), hconf]
    · exact mul_le_mul_of_nonneg_left hle (fanPower_nonneg _ _ hfan)
  · intro sv l a d o sv' st h
    exact (update_physics_preserves sv l a d o sv' st h).1

/-- C9 witness: the amended theorem at a fresh default AIR cooling system and
one hour of operation. -/
theorem c9_degradation_witness :
    ((CoolingSystem.update_degradation
        { mode := "AIR", config := {}, efficiency_factor := 1.0, operating_hours := 0.0 }
        3600.0).operating_hours = 0.0 + 3600.0 / 3600.0 ∧
     (CoolingSystem.update_degradation
        { mode := "AIR", config := {}, efficiency_factor := 1.0, operating_hours := 0.0 }
        3600.0).efficiency_factor = max 0.8 (1.0 - 0.01 / 1000.0 * (0.0 + 3600.0 / 3600.0)) ∧
     0.8 ≤ (CoolingSystem.update_degradation
        { mode := "AIR", config := {}, efficiency_factor := 1.0, operating_hours := 0.0 }
        3600.0).efficiency_factor ∧
     (∃ p p', CoolingSystem.get_power_consumption
          { mode := "AIR", config := {}, efficiency_factor := 1.0, operating_hours := 0.0 }
          0.3 = .ok p ∧
        (CoolingSystem.update_degradation
          { mode := "AIR", config := {}, efficiency_factor := 1.0, operating_hours := 0.0 }
          3600.0).get_power_consumption 0.3 = .ok p' ∧ p' ≤ p) ∧
     (∀ (sv : Server) (l a d o : ℝ) (sv' : Server) (st : StepStats),
        sv.update_physics l a d o = .ok (sv', st) → sv'.cooling_system = sv.cooling_system)) :=
  c9_degradation
    { mode := "AIR", config := {}, efficiency_factor := 1.0, operating_hours := 0.0 }
    3600.0 0.3 rfl (by norm_num) (by norm_num) (by norm_num)


/-! ### C3: per-step temperature and health invariants of the server -/

/-- Trajectory of a server through a list of `(load, action, dt)` inputs to
`update_physics` (with a zero inlet offset, as `Rack.update` uses): the list of
post-call states, or the first raised error. -/
noncomputable def serverTraj : Server → List (ℝ × ℝ × ℝ) → Except PyError (List Server)
  | _, [] => .ok []
  | s, (l, a, dt) :: rest =>
    match s.update_physics l a dt 0.0 with
    | .error e => .error e
    | .ok (s', _) =>
      match serverTraj s' rest with
      | .error e => .error e
      | .ok tl => .ok (s' :: tl)

/-- Inductive invariant of `serverTraj`: configuration and cooling system are
preserved, temperatures stay clamped, health stays in `[0, initial]` and is
non-increasing along the trajectory. -/
theorem serverTraj_invariant (inputs : List (ℝ × ℝ × ℝ)) (s : Server)
    (hmode : s.cooling_system.mode = "AIR")
    (hdt : ∀ x ∈ inputs, 0 ≤ x.2.2)
    (hh0 : 0 ≤ s.health) :
    ∃ states, serverTraj s inputs = .ok states ∧
      (∀ t ∈ states, t.config = s.config ∧ t.cooling_system = s.cooling_system ∧
        (s.config.physics.min_temp ≤ s.config.physics.max_temp →
          s.config.physics.min_temp ≤ t.temperature ∧
          t.temperature ≤ s.config.physics.max_temp) ∧
        0 ≤ t.health ∧ t.health ≤ s.health) ∧
      List.Chain' (fun u v => v.health ≤ u.health) (s :: states) := by
  induction inputs generalizing s with
  | nil =>
    refine ⟨[], rfl, ?_, ?_⟩
    · intro t ht
      exact absurd ht (List.not_mem_nil t)
    · simp
  | cons x rest ih =>
    obtain ⟨l, a, dt⟩ := x
    obtain ⟨s', st, heq, hcfg, hcool, _, _, _, _, ⟨d, hd, htemp⟩, hh1, hmono⟩ :=
      update_physics_spec s l a dt 0.0 hmode
    have hdt0 : 0 ≤ dt := hdt (l, a, dt) (List.mem_cons_self _ _)
    have hs'h : s'.health ≤ s.health := hmono hdt0 hh0
    have hmode' : s'.cooling_system.mode = "AIR" := by
      rw [hcool]
      exact hmode
    obtain ⟨states, htraj, hinv, hchain⟩ :=
      ih s' hmode' (fun y hy => hdt y (List.mem_cons_of_mem _ hy)) hh1
    refine ⟨s' :: states, ?_, ?_, ?_⟩
    · simp only [serverTraj, heq, htraj]
    · intro t ht
      rcases List.mem_cons.mp ht with h | h
      · subst h
        refine ⟨hcfg, hcool, ?_, hh1, hs'h⟩
        intro hmm
        rw [htemp]
        exact ⟨lo_le_clip _ _ _ hmm, clip_le_hi _ _ _⟩
      · obtain ⟨hc1, hc2, hc3, hc4, hc5⟩ := hinv t h
        rw [hcfg] at hc3
        exact ⟨hc1.trans hcfg, hc2.trans hcool, hc3, hc4, hc5.trans hs'h⟩
    · exact List.chain'_cons.mpr ⟨hs'h, hchain⟩

/-- C3. For every sequence of inputs with nonnegative time steps, starting
from a server with health 1.0 (as at construction and reset) whose cooling
mode is the "AIR" every rack-built server has: every call of
`Server.update_physics` succeeds, after every call the temperature lies in
`[min_temp, max_temp]` (the configured bounds being ordered) and the health
lies in `[0, 1]`, and the health sequence starting from 1.0 is monotonically
non-increasing. -/
theorem c3_server_invariants (s : Server) (inputs : List (ℝ × ℝ × ℝ))
    (hmode : s.cooling_system.mode = "AIR")
    (hminmax : s.config.physics.min_temp ≤ s.config.physics.max_temp)
    (hdt : ∀ x ∈ inputs, 0 ≤ x.2.2)
    (hh : s.health = 1.0) :
    ∃ states, serverTraj s inputs = .ok states ∧
      (∀ t ∈ states,
        s.config.physics.min_temp ≤ t.temperature ∧
        t.temperature ≤ s.config.physics.max_temp ∧
        0 ≤ t.health ∧ t.health ≤ 1) ∧
      List.Chain' (fun u v => v.health ≤ u.health) (s :: states) := by
  obtain ⟨states, h1, h2, h3⟩ := serverTraj_invariant inputs s hmode hdt (by rw [hh]; norm_num)
  refine ⟨states, h1, ?_, h3⟩
  intro t ht
  obtain ⟨_, _, hb, hh0, hle⟩ := h2 t ht
  obtain ⟨hb1, hb2⟩ := hb hminmax
  refine ⟨hb1, hb2, hh0, ?_⟩
  rw [hh] at hle
  exact le_trans hle (by norm_num)

/-- C3 witness: the invariants at a freshly constructed default server driven
through one step at load 0.9, full cooling, dt 1. -/
theorem c3_server_invariants_witness :
    ∃ states, serverTraj (Server.init 0 DEFAULT_CONFIG) [(0.9, 1.0, 1.0)] = .ok states ∧
      (∀ t ∈ states,
        (Server.init 0 DEFAULT_CONFIG).config.physics.min_temp ≤ t.temperature ∧
        t.temperature ≤ (Server.init 0 DEFAULT_CONFIG).config.physics.max_temp ∧
        0 ≤ t.health ∧ t.health ≤ 1) ∧
      List.Chain' (fun u v => v.health ≤ u.health) (Server.init 0 DEFAULT_CONFIG :: states) :=
  c3_server_invariants (Server.init 0 DEFAULT_CONFIG) [(0.9, 1.0, 1.0)] rfl
    (show (22.0 : ℝ) ≤ 95.0 by norm_num)
    (by
      intro x hx
      rw [List.mem_singleton] at hx
      subst hx
      norm_num)
    rfl


/-! ### Lemmas about `npMax` and `_calculate_reward` -/

theorem foldl_max_lt (xs : List ℝ) (acc c : ℝ) (hacc : acc < c)
    (h : ∀ y ∈ xs, y < c) : xs.foldl max acc < c := by
  induction xs generalizing acc with
  | nil => exact hacc
  | cons x xs ih =>
    apply ih
    · exact max_lt hacc (h x (List.mem_cons_self _ _))
    · intro y hy
      exact h y (List.mem_cons_of_mem _ hy)

theorem npMax_lt_of_bounds (l : List ℝ) (c : ℝ) (hne : l ≠ [])
    (h : ∀ x ∈ l, x < c) : ∃ M, npMax l = .ok M ∧ M < c := by
  cases l with
  | nil => exact absurd rfl hne
  | cons x xs =>
    refine ⟨xs.foldl max x, rfl, ?_⟩
    exact foldl_max_lt xs x c (h x (List.mem_cons_self _ _))
      fun y hy => h y (List.mem_cons_of_mem _ hy)

theorem npMax_isOk (l : List ℝ) (hne : l ≠ []) : ∃ M, npMax l = .ok M := by
  cases l with
  | nil => exact absurd rfl hne
  | cons x xs => exact ⟨xs.foldl max x, rfl⟩

/-- The catastrophic early return of `_calculate_reward`: when the maximum
stats temperature reaches `physics.max_temp`, the reward is the fixed -2000
and `last_action` is left unchanged. -/
theorem calc_reward_catastrophic (cfg : Config) (n : ℕ) (stats : List StepStats)
    (actions : List ℝ) (la : Option (List ℝ)) (M : ℝ)
    (hM : npMax (stats.map StepStats.temp) = .ok M)
    (hge : cfg.physics.max_temp ≤ M) :
    DataCenterEnv._calculate_reward cfg n stats actions la = .ok (-2000.0, la) := by
  unfold DataCenterEnv._calculate_reward
  simp only [hM]
  rw [if_pos hge]

/-- Below the catastrophic limit, `_calculate_reward` succeeds and records the
(clamped) action as the new `last_action`. -/
theorem calc_reward_ok_lt (cfg : Config) (n : ℕ) (stats : List StepStats)
    (actions : List ℝ) (la : Option (List ℝ)) (M : ℝ)
    (hM : npMax (stats.map StepStats.temp) = .ok M)
    (hlt : M < cfg.physics.max_temp) :
    ∃ rew, DataCenterEnv._calculate_reward cfg n stats actions la = .ok (rew, some actions) := by
  unfold DataCenterEnv._calculate_reward
  simp only [hM]
  rw [if_neg (not_le.mpr hlt)]
  exact ⟨_, rfl⟩

/-- `_calculate_reward` always either fails (empty stats) or succeeds with the
catastrophic reward or the regular formula. -/
theorem calc_reward_cases (cfg : Config) (n : ℕ) (stats : List StepStats)
    (actions : List ℝ) (la : Option (List ℝ)) (M : ℝ)
    (hM : npMax (stats.map StepStats.temp) = .ok M) :
    ∃ rew la', DataCenterEnv._calculate_reward cfg n stats actions la = .ok (rew, la') ∧
      (cfg.physics.max_temp ≤ M → rew = -2000.0 ∧ la' = la) ∧
      (M < cfg.physics.max_temp → la' = some actions) := by
  by_cases h : cfg.physics.max_temp ≤ M
  · refine ⟨-2000.0, la, calc_reward_catastrophic cfg n stats actions la M hM h, ?_, ?_⟩
    · exact fun _ => ⟨rfl, rfl⟩
    · intro hlt
      exact absurd h (not_le.mpr hlt)
  · obtain ⟨rew, hrew⟩ := calc_reward_ok_lt cfg n stats actions la M hM (not_le.mp h)
    refine ⟨rew, some actions, hrew, fun hc => absurd hc h, fun _ => rfl⟩

/-- Two `_calculate_reward` calls that differ only in `last_action` (both
present) differ exactly by the action-jitter penalties, provided the
catastrophic early return does not fire. -/
theorem calc_reward_jitter_diff (cfg : Config) (n : ℕ) (stats : List StepStats)
    (actions la₁ la₂ : List ℝ) (M : ℝ)
    (hM : npMax (stats.map StepStats.temp) = .ok M)
    (hlt : M < cfg.physics.max_temp) :
    ∃ r₁ r₂ : ℝ,
      DataCenterEnv._calculate_reward cfg n stats actions (some la₁) = .ok (r₁, some actions) ∧
      DataCenterEnv._calculate_reward cfg n stats actions (some la₂) = .ok (r₂, some actions) ∧
      r₁ - r₂ =
        2.0 * npMean (List.zipWith (fun x y => |x - y|) actions la₂) -
        2.0 * npMean (List.zipWith (fun x y => |x - y|) actions la₁) := by
  unfold DataCenterEnv._calculate_reward
  simp only [hM]
  rw [if_neg (not_le.mpr hlt), if_neg (not_le.mpr hlt)]
  refine ⟨_, _, rfl, rfl, by ring⟩


/-! ### Success specification of `Rack.update` -/

/-- `updateServers` on all-"AIR" servers with matching vector lengths updates
every server exactly once: lengths, modes, identities and configurations are
preserved, the stats mirror the new temperatures and healths, and each new
temperature is bounded by the rate-then-range clamp of the old one. -/
theorem updateServers_spec (servers : List Server) (loads actions : List ℝ)
    (hmode : ∀ s ∈ servers, s.cooling_system.mode = "AIR")
    (hl : loads.length = servers.length) (ha : actions.length = servers.length) :
    ∃ servers' stats total,
      updateServers servers loads actions = (servers', .ok (stats, total)) ∧
      servers'.length = servers.length ∧ stats.length = servers.length ∧
      (∀ s' ∈ servers', s'.cooling_system.mode = "AIR") ∧
      servers'.map Server.temperature = stats.map StepStats.temp ∧
      servers'.map Server.health = stats.map StepStats.health ∧
      servers'.map (fun s => (s.id, s.cooling_system, s.config)) =
        servers.map (fun s => (s.id, s.cooling_system, s.config)) ∧
      List.Forall₂ (fun s s' => s'.temperature ≤
        max s.config.physics.min_temp
          (s.temperature + s.config.physics.max_temp_change_per_second))
        servers servers' ∧
      List.Forall₂ (fun p q => Server.update_physics p.1 p.2.1 p.2.2 1.0 0.0 = .ok q)
        (servers.zip (loads.zip actions)) (servers'.zip stats) := by
  induction servers generalizing loads actions with
  | nil =>
    refine ⟨[], [], 0.0, ?_, rfl, rfl, ?_, rfl, rfl, rfl, List.Forall₂.nil, ?_⟩
    · cases loads <;> rfl
    · intro s' hs'
      exact absurd hs' (List.not_mem_nil s')
    · simp
  | cons s ss ih =>
    cases loads with
    | nil => exact absurd hl (by simp)
    | cons l ls =>
      cases actions with
      | nil => exact absurd ha (by simp)
      | cons a as_ =>
        obtain ⟨s', st, heq, hcfg, hcool, hid, _, htempst, hhealthst, ⟨d, hd, htemp⟩, _, _⟩ :=
          update_physics_spec s l a 1.0 0.0 (hmode s (List.mem_cons_self _ _))
        obtain ⟨ss', stats, total, hrec, hlen, hslen, hmodes, htemps, hhealths, hskel, hfa, hpair⟩ :=
          ih ls as_ (fun t ht => hmode t (List.mem_cons_of_mem _ ht))
            (by simpa using hl) (by simpa using ha)
        refine ⟨s' :: ss', st :: stats, st.cooling_power + total, ?_, ?_, ?_, ?_, ?_, ?_, ?_, ?_, ?_⟩
        · simp only [updateServers, heq, hrec]
        · simpa using hlen
        · simpa using hslen
        · intro t ht
          rcases List.mem_cons.mp ht with h | h
          · subst h
            rw [hcool]
            exact hmode s (List.mem_cons_self _ _)
          · exact hmodes t h
        · simp only [List.map_cons, htemps, htempst]
        · simp only [List.map_cons, hhealths, hhealthst]
        · simp only [List.map_cons, hskel, hcool, hcfg, hid, List.cons.injEq]
        · refine List.Forall₂.cons ?_ hfa
          rw [htemp]
          calc clip (s.temperature + d) s.config.physics.min_temp s.config.physics.max_temp
              ≤ max s.config.physics.min_temp (s.temperature + d) := clip_le_max _ _ _
            _ ≤ max s.config.physics.min_temp
                  (s.temperature + s.config.physics.max_temp_change_per_second) :=
                max_le_max le_rfl (by linarith)
        · rw [List.zip_cons_cons, List.zip_cons_cons, List.zip_cons_cons]
          exact List.Forall₂.cons heq hpair

/-- `Rack.update` on mismatched vector lengths raises `ValueError` before
touching any server: the returned rack is the unmodified input. -/
theorem rack_update_mismatch (r : Rack) (loads actions : List ℝ)
    (h : loads.length ≠ r.num_servers ∨ actions.length ≠ r.num_servers) :
    r.update loads actions = (r, .error .valueError) := by
  unfold Rack.update
  rw [if_pos]
  simpa [List.length_map] using h

/-- `Rack.update` on matching lengths with all-"AIR" servers: success, with
every server updated exactly once and the summed cooling power recorded. -/
theorem rack_update_spec (r : Rack) (loads actions : List ℝ)
    (hmode : ∀ s ∈ r.servers, s.cooling_system.mode = "AIR")
    (hsrv : r.servers.length = r.num_servers)
    (hl : loads.length = r.num_servers) (ha : actions.length = r.num_servers) :
    ∃ servers' stats total,
      r.update loads actions =
        ({ r with servers := servers', last_cooling_power := total }, .ok stats) ∧
      servers'.length = r.servers.length ∧ stats.length = r.servers.length ∧
      (∀ s' ∈ servers', s'.cooling_system.mode = "AIR") ∧
      servers'.map Server.temperature = stats.map StepStats.temp ∧
      servers'.map Server.health = stats.map StepStats.health ∧
      servers'.map (fun s => (s.id, s.cooling_system, s.config)) =
        r.servers.map (fun s => (s.id, s.cooling_system, s.config)) ∧
      List.Forall₂ (fun s s' => s'.temperature ≤
        max s.config.physics.min_temp
          (s.temperature + s.config.physics.max_temp_change_per_second))
        r.servers servers' ∧
      List.Forall₂ (fun p q => Server.update_physics p.1 p.2.1 p.2.2 1.0 0.0 = .ok q)
        (r.servers.zip ((loads.map fun x => clip x 0 1).zip
          (actions.map fun x => clip x 0 1))) (servers'.zip stats) := by
  obtain ⟨servers', stats, total, hupd, h1, h2, h3, h4, h5, h6, h7, h8⟩ :=
    updateServers_spec r.servers (loads.map fun x => clip x 0 1)
      (actions.map fun x => clip x 0 1) hmode
      (by rw [List.length_map, hl, hsrv]) (by rw [List.length_map, ha, hsrv])
  refine ⟨servers', stats, total, ?_, h1, h2, h3, h4, h5, h6, h7, h8⟩
  unfold Rack.update
  rw [if_neg]
  · simp only [hupd]
  · rw [List.length_map, List.length_map, hl, ha]
    simp


/-! ### Environment well-formedness and small list lemmas -/

theorem drawN_length (rng : ℕ → ℝ) (pos n : ℕ) : (drawN rng pos n).length = n := by
  simp [drawN]

theorem mem_zipWith_exists {α β γ : Type} (f : α → β → γ) (as : List α) (bs : List β)
    (y : γ) (h : y ∈ List.zipWith f as bs) : ∃ a ∈ as, ∃ b ∈ bs, y = f a b := by
  induction as generalizing bs with
  | nil => simp at h
  | cons a as ih =>
    cases bs with
    | nil => simp at h
    | cons b bs =>
      rw [List.zipWith_cons_cons] at h
      rcases List.mem_cons.mp h with h | h
      · exact ⟨a, List.mem_cons_self _ _, b, List.mem_cons_self _ _, h⟩
      · obtain ⟨a', ha', b', hb', hy⟩ := ih bs h
        exact ⟨a', List.mem_cons_of_mem _ ha', b', List.mem_cons_of_mem _ hb', hy⟩

theorem forall₂_mem_right {α β : Type} {R : α → β → Prop} {l₁ : List α} {l₂ : List β}
    (h : List.Forall₂ R l₁ l₂) (y : β) (hy : y ∈ l₂) : ∃ x ∈ l₁, R x y := by
  induction h with
  | nil => simp at hy
  | cons hR hrest ih =>
    rcases List.mem_cons.mp hy with h | h
    · subst h
      exact ⟨_, List.mem_cons_self _ _, hR⟩
    · obtain ⟨x, hx, hRx⟩ := ih h
      exact ⟨x, List.mem_cons_of_mem _ hx, hRx⟩

/-- Well-formedness of an environment state, established by `reset` and
preserved by `step`: consistent counts, at least one server, a previous
temperature record, and every server in the rack using the "AIR" cooling mode
and the environment's configuration (as `DataCenterEnv.__init__` builds them). -/
structure EnvWF (e : DataCenterEnv) : Prop where
  rack_servers : e.rack.servers.length = e.rack.num_servers
  num_eq : e.num_servers = e.rack.num_servers
  npos : 0 < e.num_servers
  loads_len : e.current_loads.length = e.num_servers
  prev_some : ∃ prev, e.prev_temps = some prev
  modes : ∀ s ∈ e.rack.servers, s.cooling_system.mode = "AIR"
  configs : ∀ s ∈ e.rack.servers, s.config = e.config

theorem rack_reset_length (r : Rack) (g : ℕ → ℝ) (p : ℕ) :
    (r.reset g p).servers.length = r.servers.length := by
  unfold Rack.reset
  simp

theorem rack_reset_mem (r : Rack) (g : ℕ → ℝ) (p : ℕ) (s' : Server)
    (h : s' ∈ (r.reset g p).servers) : ∃ s ∈ r.servers, ∃ j, s' = s.reset (g j) := by
  unfold Rack.reset at h
  obtain ⟨a, ha, b, _, hy⟩ := mem_zipWith_exists _ _ _ _ h
  exact ⟨a, ha, p + b, hy⟩

theorem init_rack_facts (cfg : Config) (npR gR : ℕ → ℝ) (gp : ℕ) :
    (DataCenterEnv.init cfg npR gR gp).rack.servers.length =
      (DataCenterEnv.init cfg npR gR gp).rack.num_servers ∧
    (DataCenterEnv.init cfg npR gR gp).num_servers =
      (DataCenterEnv.init cfg npR gR gp).rack.num_servers ∧
    (∀ s ∈ (DataCenterEnv.init cfg npR gR gp).rack.servers,
      s.cooling_system.mode = "AIR" ∧ s.config = cfg) := by
  refine ⟨?_, rfl, ?_⟩
  · unfold DataCenterEnv.init Rack.init
    simp
  · intro s hs
    unfold DataCenterEnv.init Rack.init at hs
    simp only [List.mem_map] at hs
    obtain ⟨i, _, hsi⟩ := hs
    rw [← hsi]
    exact ⟨rfl, rfl⟩


/-! ### Explicit decomposition of one `step` call -/

/-- One successful `DataCenterEnv.step` call, written out explicitly: given
the outcomes of the rack update, the reward computation and the temperature
maximum, the returned state and 5-tuple are these. -/
theorem step_decompose (e : DataCenterEnv) (action : List ℝ)
    (rack2 : Rack) (stats : List StepStats) (rew : ℝ) (la' : Option (List ℝ))
    (M : ℝ) (prev : List ℝ)
    (hupd : e.rack.update
        (List.zipWith (fun l x => clip (l + x) 0 1) e.current_loads
          (drawN e.npRng e.npPos e.num_servers))
        (action.map fun a => clip a 0 1) = (rack2, .ok stats))
    (hcalc : DataCenterEnv._calculate_reward e.config e.num_servers stats
        (action.map fun a => clip a 0 1) e.last_action = .ok (rew, la'))
    (hM : npMax rack2.get_temperatures = .ok M)
    (hprev : e.prev_temps = some prev) :
    e.step action =
      ({ e with
          current_loads := List.zipWith (fun l x => clip (l + x) 0 1) e.current_loads
            (drawN e.npRng e.npPos e.num_servers),
          rack := rack2,
          last_action := la',
          episode_rewards := e.episode_rewards ++ [rew],
          episode_temps := e.episode_temps ++ [M],
          episode_powers := e.episode_powers ++ [rack2.get_total_power],
          step_count := e.step_count + 1,
          prev_temps := some (List.zipWith (fun t x => t + x) rack2.get_temperatures
            (drawN e.npRng (e.npPos + e.num_servers) e.num_servers)),
          npPos := e.npPos + e.num_servers + e.num_servers },
       .ok { obs :=
              ((List.zipWith (fun t x => t + x) rack2.get_temperatures
                  (drawN e.npRng (e.npPos + e.num_servers) e.num_servers)).map
                fun t => clip ((t - e.config.physics.min_temp) /
                  (e.config.physics.max_temp - e.config.physics.min_temp + 1e-6)) 0 1)
              ++ (List.zipWith (fun l x => clip (l + x) 0 1) e.current_loads
                  (drawN e.npRng e.npPos e.num_servers))
              ++ rack2.servers.map Server.health
              ++ ((List.zipWith (fun nt p => (nt - p) / 10.0)
                    (List.zipWith (fun t x => t + x) rack2.get_temperatures
                      (drawN e.npRng (e.npPos + e.num_servers) e.num_servers)) prev).map
                  fun t => clip (t * 0.5 + 0.5) 0 1),
             reward := rew,
             terminated := decide (e.config.physics.max_temp ≤ M),
             truncated := decide (e.config.environment.max_steps ≤ e.step_count),
             info := { total_power := rack2.get_total_power, max_temp := M,
                       avg_temp := rack2.get_avg_temperature,
                       avg_health := rack2.get_avg_health,
                       it_power := (stats.map StepStats.it_power).sum,
                       cooling_power := (stats.map StepStats.cooling_power).sum,
                       stats := stats } }) := by
  unfold DataCenterEnv.step DataCenterEnv._get_obs
  simp only [hupd, hcalc, hM, hprev]


/-- Master specification of a `step` call from a well-formed state: it
succeeds, well-formedness and the identifying fields are preserved, the step
counter increments, the `truncated` flag is computed from the PRE-increment
counter, the `terminated` flag compares the post-update maximum temperature
with the configured limit, reaching the limit forces the fixed -2000 reward
and leaves `last_action` unchanged, and otherwise the clamped action is stored
as the new `last_action`.  The final implication turns a per-server safety
bound into a bound on the temperature maximum. -/
theorem step_spec (e : DataCenterEnv) (action : List ℝ) (h : EnvWF e)
    (hlen : action.length = e.num_servers) :
    ∃ e' r M, e.step action = (e', .ok r) ∧ EnvWF e' ∧
      e'.config = e.config ∧ e'.num_servers = e.num_servers ∧
      e'.episode_count = e.episode_count ∧
      e'.globalRng = e.globalRng ∧ e'.globalPos = e.globalPos ∧
      e'.npRng = e.npRng ∧
      e'.step_count = e.step_count + 1 ∧
      e'.rack.id = e.rack.id ∧ e'.rack.num_servers = e.rack.num_servers ∧
      e'.rack.config = e.rack.config ∧
      e'.rack.servers.map (fun s => (s.id, s.cooling_system, s.config)) =
        e.rack.servers.map (fun s => (s.id, s.cooling_system, s.config)) ∧
      r.truncated = decide (e.config.environment.max_steps ≤ e.step_count) ∧
      npMax e'.rack.get_temperatures = .ok M ∧
      r.terminated = decide (e.config.physics.max_temp ≤ M) ∧
      (e.config.physics.max_temp ≤ M → r.reward = -2000.0 ∧ e'.last_action = e.last_action) ∧
      (M < e.config.physics.max_temp →
        e'.last_action = some (action.map fun a => clip a 0 1)) ∧
      ((∀ s ∈ e.rack.servers,
          max s.config.physics.min_temp
            (s.temperature + s.config.physics.max_temp_change_per_second)
          < e.config.physics.max_temp) → M < e.config.physics.max_temp) := by
  obtain ⟨prev, hprev⟩ := h.prev_some
  have hloadlen : (List.zipWith (fun l x => clip (l + x) 0 1) e.current_loads
      (drawN e.npRng e.npPos e.num_servers)).length = e.num_servers := by
    rw [List.length_zipWith, drawN_length, h.loads_len, min_self]
  obtain ⟨servers', stats, total, hupd, hslen, hstlen, hmodes', htempsEq, hhealthEq, hskel, hfa, hpair⟩ :=
    rack_update_spec e.rack _ (action.map fun a => clip a 0 1) h.modes h.rack_servers
      (by rw [hloadlen, h.num_eq]) (by rw [List.length_map, hlen, h.num_eq])
  have hstne : stats.map StepStats.temp ≠ [] := by
    have : stats.length ≠ 0 := by
      rw [hstlen, h.rack_servers, ← h.num_eq]
      exact Nat.pos_iff_ne_zero.mp h.npos
    intro hc
    exact this (by simpa using congrArg List.length hc)
  obtain ⟨M, hM0⟩ := npMax_isOk _ hstne
  have hMtemps : npMax (Rack.get_temperatures
      { e.rack with servers := servers', last_cooling_power := total }) = .ok M := by
    show npMax (servers'.map Server.temperature) = .ok M
    rw [htempsEq]
    exact hM0
  obtain ⟨rew, la', hcalc, hcat, hlt⟩ :=
    calc_reward_cases e.config e.num_servers stats (action.map fun a => clip a 0 1)
      e.last_action M hM0
  have hstep := step_decompose e action _ stats rew la' M prev hupd hcalc hMtemps hprev
  refine ⟨_, _, M, hstep, ?_, rfl, rfl, rfl, rfl, rfl, rfl, rfl, rfl, rfl, rfl, ?_, rfl,
    hMtemps, rfl, ?_, ?_, ?_⟩
  · refine ⟨?_, h.num_eq, h.npos, ?_, ⟨_, rfl⟩, ?_, ?_⟩
    · show servers'.length = e.rack.num_servers
      rw [hslen, h.rack_servers]
    · show (List.zipWith (fun l x => clip (l + x) 0 1) e.current_loads
        (drawN e.npRng e.npPos e.num_servers)).length = e.num_servers
      exact hloadlen
    · exact hmodes'
    · intro s hs
      have hmem : (s.id, s.cooling_system, s.config) ∈
          e.rack.servers.map (fun s => (s.id, s.cooling_system, s.config)) := by
        rw [← hskel]
        exact List.mem_map_of_mem _ hs
      obtain ⟨t, ht, hts⟩ := List.mem_map.mp hmem
      have : s.config = t.config := by
        have := congrArg (fun p => p.2.2) hts
        simpa using this.symm
      rw [this]
      exact h.configs t ht
  · exact hskel
  · intro hge
    exact ⟨(hcat hge).1 ▸ rfl, (hcat hge).2 ▸ rfl⟩
  · intro hltM
    exact (hlt hltM) ▸ rfl
  · intro hsafe
    have hbound : ∀ x ∈ stats.map StepStats.temp, x < e.config.physics.max_temp := by
      intro x hx
      rw [← htempsEq] at hx
      obtain ⟨s', hs', hxs⟩ := List.mem_map.mp hx
      obtain ⟨s, hs, hR⟩ := forall₂_mem_right hfa s' hs'
      rw [← hxs]
      exact lt_of_le_of_lt hR (hsafe s hs)
    obtain ⟨M2, hM2, hM2lt⟩ := npMax_lt_of_bounds _ _ hstne hbound
    rw [hM0] at hM2
    injection hM2 with hM2e
    rw [hM2e]
    exact hM2lt


/-! ### Explicit decomposition of `reset` -/

/-- One `reset(seed)` call, written out explicitly: the rack is reset from the
process-global stream, the loads are redrawn from the freshly seeded stream,
counters and episode bookkeeping are cleared — and `last_action` is NOT
touched (it is simply carried over by the record update). -/
theorem reset_spec (e : DataCenterEnv) (σ : ℕ → ℝ) :
    ∃ obs, e.reset σ =
      ({ e with
          rack := e.rack.reset e.globalRng e.globalPos,
          prev_temps := some (List.zipWith (fun t x => t + x)
            (e.rack.reset e.globalRng e.globalPos).get_temperatures
            (drawN σ e.num_servers e.num_servers)),
          current_loads := drawN σ 0 e.num_servers,
          step_count := 0,
          episode_count := e.episode_count + 1,
          episode_rewards := [], episode_temps := [], episode_powers := [],
          npRng := σ, npPos := e.num_servers + e.num_servers,
          globalPos := e.globalPos + e.rack.servers.length }, .ok obs) := by
  unfold DataCenterEnv.reset DataCenterEnv._get_obs
  exact ⟨_, rfl⟩

/-- `reset` establishes the well-formedness invariant and preserves the
identifying fields; in particular the returned state's `last_action` is the
caller's `last_action`, and every new server is an old server reset around a
process-global draw. -/
theorem reset_establishes (e : DataCenterEnv) (σ : ℕ → ℝ)
    (h1 : e.rack.servers.length = e.rack.num_servers)
    (h2 : e.num_servers = e.rack.num_servers)
    (h3 : 0 < e.num_servers)
    (hm : ∀ s ∈ e.rack.servers, s.cooling_system.mode = "AIR")
    (hc : ∀ s ∈ e.rack.servers, s.config = e.config) :
    EnvWF ((e.reset σ).1) ∧
    ((e.reset σ).1).step_count = 0 ∧
    ((e.reset σ).1).config = e.config ∧
    ((e.reset σ).1).num_servers = e.num_servers ∧
    ((e.reset σ).1).last_action = e.last_action ∧
    ((e.reset σ).1).episode_count = e.episode_count + 1 ∧
    ((e.reset σ).1).globalRng = e.globalRng ∧
    ((e.reset σ).1).globalPos = e.globalPos + e.rack.servers.length ∧
    (∀ s' ∈ ((e.reset σ).1).rack.servers,
      ∃ s ∈ e.rack.servers, ∃ j, s' = s.reset (e.globalRng j)) := by
  obtain ⟨obs, hr⟩ := reset_spec e σ
  rw [hr]
  have hmem : ∀ s' ∈ (e.rack.reset e.globalRng e.globalPos).servers,
      ∃ s ∈ e.rack.servers, ∃ j, s' = s.reset (e.globalRng j) :=
    fun s' hs' => rack_reset_mem e.rack e.globalRng e.globalPos s' hs'
  refine ⟨⟨?_, h2, h3, ?_, ⟨_, rfl⟩, ?_, ?_⟩, rfl, rfl, rfl, rfl, rfl, rfl, rfl, hmem⟩
  · show (e.rack.reset e.globalRng e.globalPos).servers.length = e.rack.num_servers
    rw [rack_reset_length, h1]
  · exact drawN_length σ 0 e.num_servers
  · intro s' hs'
    obtain ⟨s, hs, j, hj⟩ := hmem s' hs'
    rw [hj]
    exact hm s hs
  · intro s' hs'
    obtain ⟨s, hs, j, hj⟩ := hmem s' hs'
    rw [hj]
    exact hc s hs

/-! ### Iterated steps -/

/-- Along any run of successive `step` calls from a well-formed state, every
call succeeds, well-formedness is preserved, the step counter counts the
calls, and the `truncated` flag of the `i`-th call (0-indexed) is computed
from the counter value BEFORE that call's increment. -/
theorem iterate_spec (e : DataCenterEnv) (acts : ℕ → List ℝ) (h : EnvWF e)
    (hlen : ∀ j, (acts j).length = e.num_servers) (i : ℕ) :
    ∃ e' r, iterateSteps e acts i = (e', .ok r) ∧ EnvWF e' ∧
      e'.config = e.config ∧ e'.num_servers = e.num_servers ∧
      e'.step_count = e.step_count + i + 1 ∧
      r.truncated = decide (e.config.environment.max_steps ≤ e.step_count + i) := by
  induction i with
  | zero =>
    obtain ⟨e', r, M, h1, h2, h3, h4, _, _, _, _, h9, _, _, _, _, h14, _⟩ :=
      step_spec e (acts 0) h (hlen 0)
    refine ⟨e', r, h1, h2, h3, h4, by rw [h9], by simpa using h14⟩
  | succ i ih =>
    obtain ⟨e1, r1, hit, hwf1, hcfg1, hnum1, hsc1, _⟩ := ih
    obtain ⟨e2, r2, M, h1, h2, h3, h4, _, _, _, _, h9, _, _, _, _, h14, _⟩ :=
      step_spec e1 (acts (i + 1)) hwf1 (by rw [hlen (i + 1), hnum1])
    refine ⟨e2, r2, ?_, h2, by rw [h3, hcfg1], by rw [h4, hnum1], ?_, ?_⟩
    · simp only [iterateSteps, hit, h1]
    · rw [h9, hsc1]
      ring
    · rw [h14, hcfg1, hsc1]
      congr 1


/-! ### A concrete well-formed environment for instantiations -/

/-- A concrete environment: default configuration (10 servers, 1000-step
budget), constant plausible random draws (initial loads 0.7 inside the
configured [0.6, 0.9] range, global reset draws 45 inside [40, 50]), freshly
reset with seed stream constant 0.7. -/
noncomputable def sampleEnv : DataCenterEnv :=
  ((DataCenterEnv.init DEFAULT_CONFIG (fun _ => 0.7) (fun _ => 45.0) 0).reset fun _ => 0.7).1

theorem sampleEnv_facts : EnvWF sampleEnv ∧ sampleEnv.step_count = 0 ∧
    sampleEnv.config = DEFAULT_CONFIG ∧ sampleEnv.num_servers = 10 := by
  obtain ⟨h1, h2, hmc⟩ := init_rack_facts DEFAULT_CONFIG (fun _ => 0.7) (fun _ => 45.0) 0
  have h3 : 0 < (DataCenterEnv.init DEFAULT_CONFIG (fun _ => 0.7) (fun _ => 45.0) 0).num_servers := by
    norm_num [DataCenterEnv.init, DEFAULT_CONFIG]
  obtain ⟨hwf, hsc, hcfg, hnum, _, _, _, _, _⟩ :=
    reset_establishes (DataCenterEnv.init DEFAULT_CONFIG (fun _ => 0.7) (fun _ => 45.0) 0)
      (fun _ => 0.7) h1 h2 h3 (fun s hs => (hmc s hs).1) (fun s hs => (hmc s hs).2)
  refine ⟨hwf, hsc, hcfg, ?_⟩
  unfold sampleEnv
  rw [hnum]
  norm_num [DataCenterEnv.init, DEFAULT_CONFIG]

/-! ### C4: the truncation flag -/

/-- C4 (amended). With `max_steps = 1000`, along any run from a freshly reset
(well-formed, counter 0) state, every call succeeds and the `truncated` flag of
the `i`-th call (0-indexed) equals `decide (1000 ≤ i)`: it is `false` on each
of the first 1000 calls and becomes `true` exactly on the 1001st call — one
call later than the claim states, because `step` evaluates
`step_count >= max_steps` BEFORE incrementing the counter. -/
theorem c4_truncation (e : DataCenterEnv) (acts : ℕ → List ℝ) (i : ℕ)
    (h : EnvWF e) (h0 : e.step_count = 0)
    (hlen : ∀ j, (acts j).length = e.num_servers)
    (hms : e.config.environment.max_steps = 1000) :
    ((iterateSteps e acts i).2).map StepResult.truncated = .ok (decide (1000 ≤ i)) := by
  obtain ⟨e', r, hit, _, _, _, _, htr⟩ := iterate_spec e acts h hlen i
  rw [hit]
  show Except.ok r.truncated = Except.ok (decide (1000 ≤ i))
  rw [htr, h0, hms]
  norm_num

/-- C4 witness: the amended theorem at the concrete reset environment, call
index 1000 (the 1001st call), where the flag first becomes true. -/
theorem c4_truncation_witness :
    ((iterateSteps sampleEnv (fun _ => List.replicate 10 0.5) 1000).2).map
      StepResult.truncated = .ok (decide (1000 ≤ 1000)) :=
  c4_truncation sampleEnv (fun _ => List.replicate 10 0.5) 1000
    sampleEnv_facts.1 sampleEnv_facts.2.1
    (fun j => by rw [sampleEnv_facts.2.2.2]; rfl)
    (by rw [sampleEnv_facts.2.2.1]; rfl)

/-- C4 counterexample. The claim says `truncated` becomes true exactly on the
1000th call.  On the 1000th call (index 999) of this concrete run with
`max_steps = 1000` the flag is still false (it first turns true on call
1001). -/
theorem c4_counterexample :
    ((iterateSteps sampleEnv (fun _ => List.replicate 10 0.5) 999).2).map
      StepResult.truncated = .ok false := by
  obtain ⟨hwf, hsc, hcfg, hnum⟩ := sampleEnv_facts
  obtain ⟨e', r, hit, _, _, _, _, htr⟩ := iterate_spec sampleEnv
    (fun _ => List.replicate 10 0.5) hwf (fun j => by rw [hnum]; rfl) 999
  rw [hit]
  show Except.ok r.truncated = Except.ok false
  rw [htr, hsc, hcfg]
  norm_num [DEFAULT_CONFIG]

/-! ### C5: catastrophic termination -/

/-- C5. From any well-formed state with the configured limit 95 °C, a `step`
call never raises: it returns with `terminated = true` exactly when the
post-update maximum temperature reaches or exceeds 95 °C (applied per step,
this makes the flag fire exactly on the first such step of a run), and on any
terminated step the returned reward is the fixed catastrophic -2000 — the
excursion surfaces as a flag plus penalty, not as an exception. -/
theorem c5_catastrophic_termination (e : DataCenterEnv) (action : List ℝ)
    (h : EnvWF e) (hlen : action.length = e.num_servers)
    (hmax : e.config.physics.max_temp = 95.0) :
    ∃ e' r M, e.step action = (e', .ok r) ∧
      npMax e'.rack.get_temperatures = .ok M ∧
      (r.terminated = true ↔ 95.0 ≤ M) ∧
      (r.terminated = true → r.reward = -2000.0) := by
  obtain ⟨e', r, M, h1, _, _, _, _, _, _, _, _, _, _, _, _, _, h15, h16, h17, _, _⟩ :=
    step_spec e action h hlen
  refine ⟨e', r, M, h1, h15, ?_, ?_⟩
  · rw [h16, hmax]
    exact decide_eq_true_iff
  · intro ht
    rw [h16] at ht
    exact (h17 (of_decide_eq_true ht)).1

/-- C5 witness: the theorem at the concrete reset environment with full load
ignored and zero cooling action. -/
theorem c5_catastrophic_termination_witness :
    ∃ e' r M, sampleEnv.step (List.replicate 10 0.0) = (e', .ok r) ∧
      npMax e'.rack.get_temperatures = .ok M ∧
      (r.terminated = true ↔ 95.0 ≤ M) ∧
      (r.terminated = true → r.reward = -2000.0) :=
  c5_catastrophic_termination sampleEnv (List.replicate 10 0.0)
    sampleEnv_facts.1
    (by rw [sampleEnv_facts.2.2.2]; rfl)
    (by rw [sampleEnv_facts.2.2.1]; rfl)


/-! ### C8: rack input validation -/

/-- C8. `Rack.update(loads, actions)` raises (`ValueError`, the spec's
ValidationError) exactly when the length of `loads` or of `actions` differs
from the configured server count; on that error the returned rack is the
unmodified input (the length check precedes every server update), so no server
state and no rack accumulator changes.  On matching lengths the call succeeds:
both vectors are clamped to `[0,1]` and every server is updated exactly once
with its own clamped load/action pair (the pointwise `Forall₂`), with the
summed cooling power recorded. -/
theorem c8_rack_validation (r : Rack) (loads actions : List ℝ)
    (hmode : ∀ s ∈ r.servers, s.cooling_system.mode = "AIR")
    (hsrv : r.servers.length = r.num_servers) :
    ((loads.length ≠ r.num_servers ∨ actions.length ≠ r.num_servers) →
      r.update loads actions = (r, .error .valueError)) ∧
    (loads.length = r.num_servers → actions.length = r.num_servers →
      ∃ servers' stats total,
        r.update loads actions =
          ({ r with servers := servers', last_cooling_power := total }, .ok stats) ∧
        servers'.length = r.servers.length ∧ stats.length = r.servers.length ∧
        List.Forall₂ (fun p q => Server.update_physics p.1 p.2.1 p.2.2 1.0 0.0 = .ok q)
          (r.servers.zip ((loads.map fun x => clip x 0 1).zip
            (actions.map fun x => clip x 0 1))) (servers'.zip stats)) := by
  constructor
  · exact rack_update_mismatch r loads actions
  · intro hl ha
    obtain ⟨servers', stats, total, hupd, h1, h2, _, _, _, _, _, h8⟩ :=
      rack_update_spec r loads actions hmode hsrv hl ha
    exact ⟨servers', stats, total, hupd, h1, h2, h8⟩

/-- C8 witness: the theorem at a concrete two-server rack. -/
theorem c8_rack_validation_witness :
    ((([0.5, 0.5, 0.5] : List ℝ).length ≠ (Rack.init 0 2 DEFAULT_CONFIG).num_servers ∨
        (([0.1] : List ℝ)).length ≠ (Rack.init 0 2 DEFAULT_CONFIG).num_servers) →
      (Rack.init 0 2 DEFAULT_CONFIG).update [0.5, 0.5, 0.5] [0.1] =
        (Rack.init 0 2 DEFAULT_CONFIG, .error .valueError)) ∧
    (([0.5, 0.5, 0.5] : List ℝ).length = (Rack.init 0 2 DEFAULT_CONFIG).num_servers →
      (([0.1] : List ℝ)).length = (Rack.init 0 2 DEFAULT_CONFIG).num_servers →
      ∃ servers' stats total,
        (Rack.init 0 2 DEFAULT_CONFIG).update [0.5, 0.5, 0.5] [0.1] =
          ({ Rack.init 0 2 DEFAULT_CONFIG with
              servers := servers', last_cooling_power := total }, .ok stats) ∧
        servers'.length = (Rack.init 0 2 DEFAULT_CONFIG).servers.length ∧
        stats.length = (Rack.init 0 2 DEFAULT_CONFIG).servers.length ∧
        List.Forall₂ (fun p q => Server.update_physics p.1 p.2.1 p.2.2 1.0 0.0 = .ok q)
          ((Rack.init 0 2 DEFAULT_CONFIG).servers.zip
            ((([0.5, 0.5, 0.5] : List ℝ).map fun x => clip x 0 1).zip
              ((([0.1] : List ℝ)).map fun x => clip x 0 1)))
          (servers'.zip stats)) :=
  c8_rack_validation (Rack.init 0 2 DEFAULT_CONFIG) [0.5, 0.5, 0.5] [0.1]
    (by
      intro s hs
      unfold Rack.init at hs
      simp only [List.mem_map] at hs
      obtain ⟨i, _, hi⟩ := hs
      rw [← hi]
      rfl)
    (by
      unfold Rack.init
      simp)


/-! ### C2: reproducibility and the global generator -/

theorem server_reset_congr (s₁ s₂ : Server) (d : ℝ)
    (hid : s₁.id = s₂.id) (hcool : s₁.cooling_system = s₂.cooling_system)
    (hcfg : s₁.config = s₂.config) : s₁.reset d = s₂.reset d := by
  cases s₁
  cases s₂
  simp only at hid hcool hcfg
  subst hid
  subst hcool
  subst hcfg
  rfl

theorem zip_reset_congr (g : ℕ → ℝ) (servers₁ servers₂ : List Server) (p : ℕ)
    (hsk : servers₁.map (fun s => (s.id, s.cooling_system, s.config)) =
           servers₂.map (fun s => (s.id, s.cooling_system, s.config))) :
    List.zipWith (fun s i => s.reset (g (p + i))) servers₁ (List.range servers₁.length) =
    List.zipWith (fun s i => s.reset (g (p + i))) servers₂ (List.range servers₂.length) := by
  induction servers₁ generalizing servers₂ p with
  | nil =>
    cases servers₂ with
    | nil => rfl
    | cons b bs => exact absurd hsk (by simp)
  | cons a as ih =>
    cases servers₂ with
    | nil => exact absurd hsk (by simp)
    | cons b bs =>
      simp only [List.map_cons, List.cons.injEq] at hsk
      obtain ⟨hhead, htail⟩ := hsk
      have hres : a.reset (g (p + 0)) = b.reset (g (p + 0)) := by
        apply server_reset_congr
        · exact congrArg (fun q => q.1) hhead
        · exact congrArg (fun q => q.2.1) hhead
        · exact congrArg (fun q => q.2.2) hhead
      simp only [List.length_cons, List.range_succ_eq_map, List.zipWith_cons_cons,
        List.zipWith_map_right]
      refine congrArg₂ _ hres ?_
      have heq1 : (fun (s : Server) (i : ℕ) => s.reset (g (p + (i + 1)))) =
          fun (s : Server) (i : ℕ) => s.reset (g ((p + 1) + i)) := by
        funext s i
        have : p + (i + 1) = (p + 1) + i := by ring
        rw [this]
      rw [show (fun (s : Server) (b : ℕ) => s.reset (g (p + (b + 1)))) =
          fun (s : Server) (i : ℕ) => s.reset (g ((p + 1) + i)) from heq1]
      exact ih bs (p + 1) htail

theorem rack_reset_congr (r₁ r₂ : Rack) (g : ℕ → ℝ) (p : ℕ)
    (hid : r₁.id = r₂.id) (hn : r₁.num_servers = r₂.num_servers)
    (hcfg : r₁.config = r₂.config)
    (hsk : r₁.servers.map (fun s => (s.id, s.cooling_system, s.config)) =
           r₂.servers.map (fun s => (s.id, s.cooling_system, s.config))) :
    r₁.reset g p = r₂.reset g p := by
  unfold Rack.reset
  have hz := zip_reset_congr g r₁.servers r₂.servers p hsk
  cases r₁
  cases r₂
  simp only at hid hn hcfg hz ⊢
  subst hid
  subst hn
  subst hcfg
  simp only [Rack.mk.injEq, and_true, true_and]
  exact hz

/-- C2 (amended).  Two environments that agree on configuration, server count,
episode counter, carried-over `last_action`, the PROCESS-GLOBAL generator and
its cursor, and the persistent rack skeleton (ids, cooling systems, per-server
configs) — but may differ arbitrarily in loads, temperatures, healths, step
counters and episode histories — produce IDENTICAL `reset(seed)` results for
the same seed stream, and identical reward sequences for any subsequent action
sequence.  (Equality of the seed alone is NOT enough: `Server.reset` draws the
initial temperatures from the global `np.random` generator, so the global
draws must also coincide.) -/
theorem c2_reset_reproducibility (e₁ e₂ : DataCenterEnv) (σ : ℕ → ℝ)
    (acts : List (List ℝ))
    (hcfg : e₁.config = e₂.config) (hn : e₁.num_servers = e₂.num_servers)
    (hep : e₁.episode_count = e₂.episode_count)
    (hla : e₁.last_action = e₂.last_action)
    (hg : e₁.globalRng = e₂.globalRng) (hgp : e₁.globalPos = e₂.globalPos)
    (hrid : e₁.rack.id = e₂.rack.id) (hrn : e₁.rack.num_servers = e₂.rack.num_servers)
    (hrc : e₁.rack.config = e₂.rack.config)
    (hsk : e₁.rack.servers.map (fun s => (s.id, s.cooling_system, s.config)) =
           e₂.rack.servers.map (fun s => (s.id, s.cooling_system, s.config))) :
    e₁.reset σ = e₂.reset σ ∧
    runRewards (e₁.reset σ).1 acts = runRewards (e₂.reset σ).1 acts := by
  have hrack : e₁.rack.reset e₁.globalRng e₁.globalPos =
      e₂.rack.reset e₂.globalRng e₂.globalPos := by
    rw [hg, hgp]
    exact rack_reset_congr _ _ _ _ hrid hrn hrc hsk
  have hlen : e₁.rack.servers.length = e₂.rack.servers.length := by
    have h := congrArg List.length hsk
    simpa using h
  have hmain : e₁.reset σ = e₂.reset σ := by
    unfold DataCenterEnv.reset
    refine congrArg DataCenterEnv._get_obs ?_
    refine DataCenterEnv.ext hcfg hn hrack ?_ rfl ?_ ?_ rfl rfl rfl hla rfl ?_ hg ?_
    · show drawN σ 0 e₁.num_servers = drawN σ 0 e₂.num_servers
      rw [hn]
    · show e₁.episode_count + 1 = e₂.episode_count + 1
      rw [hep]
    · show some (e₁.rack.reset e₁.globalRng e₁.globalPos).get_temperatures =
        some (e₂.rack.reset e₂.globalRng e₂.globalPos).get_temperatures
      rw [hrack]
    · show e₁.num_servers = e₂.num_servers
      rw [hn]
    · show e₁.globalPos + e₁.rack.servers.length = e₂.globalPos + e₂.rack.servers.length
      rw [hgp, hlen]
  exact ⟨hmain, by rw [hmain]⟩

/-- C2 witness: the amended theorem at two concrete environments that differ
in their episode history and current loads but share configuration, streams
and rack skeleton. -/
theorem c2_reset_reproducibility_witness :
    (DataCenterEnv.init DEFAULT_CONFIG (fun _ => 0.7) (fun _ => 45.0) 0).reset (fun _ => 0.7) =
      ({ DataCenterEnv.init DEFAULT_CONFIG (fun _ => 0.7) (fun _ => 45.0) 0 with
          episode_temps := [70.0],
          current_loads := List.replicate 10 0.9 }).reset (fun _ => 0.7) ∧
    runRewards ((DataCenterEnv.init DEFAULT_CONFIG (fun _ => 0.7) (fun _ => 45.0) 0).reset
        (fun _ => 0.7)).1 [List.replicate 10 0.2] =
      runRewards (({ DataCenterEnv.init DEFAULT_CONFIG (fun _ => 0.7) (fun _ => 45.0) 0 with
          episode_temps := [70.0],
          current_loads := List.replicate 10 0.9 }).reset (fun _ => 0.7)).1
        [List.replicate 10 0.2] :=
  c2_reset_reproducibility _ _ (fun _ => 0.7) [List.replicate 10 0.2]
    rfl rfl rfl rfl rfl rfl rfl rfl rfl rfl


/-- C2 counterexample. One process, one single-server environment, constant
seeded stream; `reset(seed)` is called twice with the SAME seed.  The two
resets return different observations, because each `Server.reset` consumes the
next value of the process-global `np.random` stream (here 45.0 then 48.0, both
legitimate draws of `uniform(40, 50)`): the initial observation is not a
function of the seed alone, refuting bit-identical reproducibility from equal
seeds. -/
theorem range_one_eq : List.range 1 = [0] := by decide

theorem c2_counterexample :
    ((DataCenterEnv.init
        ({ environment := { num_racks := 1, servers_per_rack := 1 } } : Config)
        (fun i => if i = 0 then 0.75 else 0)
        (fun i => if i = 0 then 45.0 else 48.0) 0).reset
        (fun i => if i = 0 then 0.75 else 0)).2 ≠
    ((((DataCenterEnv.init
        ({ environment := { num_racks := 1, servers_per_rack := 1 } } : Config)
        (fun i => if i = 0 then 0.75 else 0)
        (fun i => if i = 0 then 45.0 else 48.0) 0).reset
        (fun i => if i = 0 then 0.75 else 0)).1).reset
        (fun i => if i = 0 then 0.75 else 0)).2 := by
  intro hcontra
  have h := congrArg (Except.map fun l => l.headD 0) hcontra
  simp only [DataCenterEnv.reset, DataCenterEnv._get_obs, DataCenterEnv.init, Rack.init,
    Rack.reset, Server.init, Server.reset, Rack.get_temperatures, drawN,
    range_one_eq, List.map_cons, List.map_nil, List.zipWith_cons_cons,
    List.zipWith_nil_right, List.zipWith_nil_left, List.cons_append, List.nil_append,
    List.length_map, List.length_cons, List.length_nil, List.length_zipWith,
    List.length_range, Except.map, List.headD, List.head?_cons, Option.getD_some,
    Except.ok.injEq] at h
  norm_num [range_one_eq, List.map_cons, List.map_nil, List.zipWith_cons_cons,
    List.zipWith_nil_right, List.zipWith_nil_left, List.cons_append, List.nil_append,
    List.length_map, List.length_cons, List.length_nil, List.length_zipWith,
    List.length_range, Except.map, List.headD, List.head?_cons, Option.getD_some,
    Except.ok.injEq] at h
  rw [clip_eq_self _ _ _ (by norm_num) (by norm_num),
    clip_eq_self _ _ _ (by norm_num) (by norm_num)] at h
  norm_num at h


/-! ### C10: the frame effect of `reset` on `last_action` -/

/-- Two environments that agree on everything `reset` depends on EXCEPT their
`last_action` produce reset states that differ exactly in the carried-over
`last_action`. -/
theorem reset_congr_except_la (e₁ e₂ : DataCenterEnv) (σ : ℕ → ℝ)
    (hcfg : e₁.config = e₂.config) (hn : e₁.num_servers = e₂.num_servers)
    (hep : e₁.episode_count = e₂.episode_count)
    (hg : e₁.globalRng = e₂.globalRng) (hgp : e₁.globalPos = e₂.globalPos)
    (hrid : e₁.rack.id = e₂.rack.id) (hrn : e₁.rack.num_servers = e₂.rack.num_servers)
    (hrc : e₁.rack.config = e₂.rack.config)
    (hsk : e₁.rack.servers.map (fun s => (s.id, s.cooling_system, s.config)) =
           e₂.rack.servers.map (fun s => (s.id, s.cooling_system, s.config))) :
    (e₁.reset σ).1 = { (e₂.reset σ).1 with last_action := e₁.last_action } := by
  have hrack : e₁.rack.reset e₁.globalRng e₁.globalPos =
      e₂.rack.reset e₂.globalRng e₂.globalPos := by
    rw [hg, hgp]
    exact rack_reset_congr _ _ _ _ hrid hrn hrc hsk
  have hlen : e₁.rack.servers.length = e₂.rack.servers.length := by
    have h := congrArg List.length hsk
    simpa using h
  obtain ⟨obs₁, h₁⟩ := reset_spec e₁ σ
  obtain ⟨obs₂, h₂⟩ := reset_spec e₂ σ
  rw [h₁, h₂]
  refine DataCenterEnv.ext hcfg hn hrack ?_ rfl ?_ ?_ rfl rfl rfl rfl rfl ?_ hg ?_
  · show drawN σ 0 e₁.num_servers = drawN σ 0 e₂.num_servers
    rw [hn]
  · show e₁.episode_count + 1 = e₂.episode_count + 1
    rw [hep]
  · show some (List.zipWith (fun t x => t + x)
        (e₁.rack.reset e₁.globalRng e₁.globalPos).get_temperatures
        (drawN σ e₁.num_servers e₁.num_servers)) =
      some (List.zipWith (fun t x => t + x)
        (e₂.rack.reset e₂.globalRng e₂.globalPos).get_temperatures
        (drawN σ e₂.num_servers e₂.num_servers))
    rw [hrack, hn]
  · show e₁.num_servers + e₁.num_servers = e₂.num_servers + e₂.num_servers
    rw [hn]
  · show e₁.globalPos + e₁.rack.servers.length = e₂.globalPos + e₂.rack.servers.length
    rw [hgp, hlen]

/-- Two `step` calls from states that differ only in `last_action` (both
present), below the catastrophic limit, succeed and their rewards differ
exactly by the two action-jitter penalties. -/
theorem step_reward_diff (e : DataCenterEnv) (la lb : List ℝ) (action : List ℝ)
    (h : EnvWF e) (hlen : action.length = e.num_servers)
    (hla : e.last_action = some lb)
    (hsafe : ∀ s ∈ e.rack.servers,
      max s.config.physics.min_temp
        (s.temperature + s.config.physics.max_temp_change_per_second)
      < e.config.physics.max_temp) :
    ∃ eA eB rA rB,
      ({ e with last_action := some la }).step action = (eA, .ok rA) ∧
      e.step action = (eB, .ok rB) ∧
      rA.reward - rB.reward =
        2.0 * npMean (List.zipWith (fun x y => |x - y|) (action.map fun a => clip a 0 1) lb) -
        2.0 * npMean (List.zipWith (fun x y => |x - y|) (action.map fun a => clip a 0 1) la) := by
  obtain ⟨prev, hprev⟩ := h.prev_some
  have hloadlen : (List.zipWith (fun l x => clip (l + x) 0 1) e.current_loads
      (drawN e.npRng e.npPos e.num_servers)).length = e.num_servers := by
    rw [List.length_zipWith, drawN_length, h.loads_len, min_self]
  obtain ⟨servers', stats, total, hupd, hslen, hstlen, hmodes', htempsEq, hhealthEq, hskel,
      hfa, hpair⟩ :=
    rack_update_spec e.rack _ (action.map fun a => clip a 0 1) h.modes h.rack_servers
      (by rw [hloadlen, h.num_eq]) (by rw [List.length_map, hlen, h.num_eq])
  have hstne : stats.map StepStats.temp ≠ [] := by
    have hne : stats.length ≠ 0 := by
      rw [hstlen, h.rack_servers, ← h.num_eq]
      exact Nat.pos_iff_ne_zero.mp h.npos
    intro hc
    exact hne (by simpa using congrArg List.length hc)
  have hbound : ∀ x ∈ stats.map StepStats.temp, x < e.config.physics.max_temp := by
    intro x hx
    rw [← htempsEq] at hx
    obtain ⟨s', hs', hxs⟩ := List.mem_map.mp hx
    obtain ⟨s, hs, hR⟩ := forall₂_mem_right hfa s' hs'
    rw [← hxs]
    exact lt_of_le_of_lt hR (hsafe s hs)
  obtain ⟨M, hM0, hMlt⟩ := npMax_lt_of_bounds _ _ hstne hbound
  have hMtemps : npMax (Rack.get_temperatures
      { e.rack with servers := servers', last_cooling_power := total }) = .ok M := by
    show npMax (servers'.map Server.temperature) = .ok M
    rw [htempsEq]
    exact hM0
  obtain ⟨r₁, r₂, hcalcA, hcalcB, hdiff⟩ :=
    calc_reward_jitter_diff e.config e.num_servers stats (action.map fun a => clip a 0 1)
      la lb M hM0 hMlt
  have hcalcB2 : DataCenterEnv._calculate_reward e.config e.num_servers stats
      (action.map fun a => clip a 0 1) e.last_action =
      .ok (r₂, some (action.map fun a => clip a 0 1)) := by
    rw [hla]
    exact hcalcB
  have hstepA := step_decompose { e with last_action := some la } action _ stats r₁
    (some (action.map fun a => clip a 0 1)) M prev hupd hcalcA hMtemps hprev
  have hstepB := step_decompose e action _ stats r₂
    (some (action.map fun a => clip a 0 1)) M prev hupd hcalcB2 hMtemps hprev
  exact ⟨_, _, _, _, hstepA, hstepB, hdiff⟩


/-- The two-episode scenario behind the `last_action` frame effect, in general
form: initialize, reset with seed, take one pre-reset step (action `a` or `b`),
reset again with the same seed, then take the same post-reset step `c`.  Both
runs succeed, and the first post-reset rewards differ exactly by the jitter
penalties computed against the two PRE-reset actions — because `reset` keeps
`last_action`. -/
theorem c10_general (cfg : Config) (σ g : ℕ → ℝ) (a b c : List ℝ)
    (hlenA : a.length = (DataCenterEnv.init cfg σ g 0).num_servers)
    (hlenB : b.length = (DataCenterEnv.init cfg σ g 0).num_servers)
    (hlenC : c.length = (DataCenterEnv.init cfg σ g 0).num_servers)
    (hpos : 0 < (DataCenterEnv.init cfg σ g 0).num_servers)
    (hdraw : ∀ j, max cfg.physics.min_temp (g j + cfg.physics.max_temp_change_per_second)
        < cfg.physics.max_temp) :
    ∃ rA rB : StepResult,
      (((((DataCenterEnv.init cfg σ g 0).reset σ).1.step a).1.reset σ).1.step c).2 = .ok rA ∧
      (((((DataCenterEnv.init cfg σ g 0).reset σ).1.step b).1.reset σ).1.step c).2 = .ok rB ∧
      rA.reward - rB.reward =
        2.0 * npMean (List.zipWith (fun x y => |x - y|) (c.map fun x => clip x 0 1)
          (b.map fun x => clip x 0 1)) -
        2.0 * npMean (List.zipWith (fun x y => |x - y|) (c.map fun x => clip x 0 1)
          (a.map fun x => clip x 0 1)) := by
  obtain ⟨hi1, hi2, hmc⟩ := init_rack_facts cfg σ g 0
  obtain ⟨hwfR, hscR, hcfgR, hnumR, hlaR, hepR, hgrR, hgpR, hmemR⟩ :=
    reset_establishes (DataCenterEnv.init cfg σ g 0) σ hi1 hi2 hpos
      (fun s hs => (hmc s hs).1) (fun s hs => (hmc s hs).2)
  have hsafeR : ∀ s' ∈ (((DataCenterEnv.init cfg σ g 0).reset σ).1).rack.servers,
      max s'.config.physics.min_temp
        (s'.temperature + s'.config.physics.max_temp_change_per_second)
      < (((DataCenterEnv.init cfg σ g 0).reset σ).1).config.physics.max_temp := by
    intro s' hs'
    obtain ⟨s, hs, j, hj⟩ := hmemR s' hs'
    have hc1 : s'.config = cfg := by
      rw [hj]
      show s.config = cfg
      exact (hmc s hs).2
    have ht1 : s'.temperature = g j := by
      rw [hj]
      rfl
    rw [hc1, ht1, hcfgR]
    exact hdraw j
  obtain ⟨eA1, rA1, MA, hstA, wfA1, hcfgA, hnumA, hepA, hgrA, hgpA, hnpA, hscA, hridA, hrnA,
      hrcA, hskA, htrA, hMA, hteA, hcatA, hltA, hsfA⟩ :=
    step_spec (((DataCenterEnv.init cfg σ g 0).reset σ).1) a hwfR (by rw [hnumR]; exact hlenA)
  obtain ⟨eB1, rB1, MB, hstB, wfB1, hcfgB, hnumB, hepB, hgrB, hgpB, hnpB, hscB, hridB, hrnB,
      hrcB, hskB, htrB, hMB, hteB, hcatB, hltB, hsfB⟩ :=
    step_spec (((DataCenterEnv.init cfg σ g 0).reset σ).1) b hwfR (by rw [hnumR]; exact hlenB)
  have hlaA1 : eA1.last_action = some (a.map fun x => clip x 0 1) := hltA (hsfA hsafeR)
  have hlaB1 : eB1.last_action = some (b.map fun x => clip x 0 1) := hltB (hsfB hsafeR)
  have hexc := reset_congr_except_la eA1 eB1 σ (hcfgA.trans hcfgB.symm)
    (hnumA.trans hnumB.symm) (hepA.trans hepB.symm) (hgrA.trans hgrB.symm)
    (hgpA.trans hgpB.symm) (hridA.trans hridB.symm) (hrnA.trans hrnB.symm)
    (hrcA.trans hrcB.symm) (hskA.trans hskB.symm)
  obtain ⟨hwfB2, hscB2, hcfgB2, hnumB2, hlaB2, hepB2, hgrB2, hgpB2, hmemB2⟩ :=
    reset_establishes eB1 σ wfB1.rack_servers wfB1.num_eq wfB1.npos wfB1.modes wfB1.configs
  have hsafeB2 : ∀ s' ∈ ((eB1.reset σ).1).rack.servers,
      max s'.config.physics.min_temp
        (s'.temperature + s'.config.physics.max_temp_change_per_second)
      < ((eB1.reset σ).1).config.physics.max_temp := by
    intro s' hs'
    obtain ⟨s, hs, j, hj⟩ := hmemB2 s' hs'
    have hc1 : s'.config = cfg := by
      rw [hj]
      show s.config = cfg
      rw [wfB1.configs s hs, hcfgB, hcfgR]
      rfl
    have ht1 : s'.temperature = eB1.globalRng j := by
      rw [hj]
      rfl
    have hgj : eB1.globalRng j = g j := by
      rw [hgrB, hgrR]
      rfl
    rw [hc1, ht1, hgj, hcfgB2, hcfgB, hcfgR]
    exact hdraw j
  have hlenC2 : c.length = ((eB1.reset σ).1).num_servers := by
    rw [hnumB2, hnumB, hnumR]
    exact hlenC
  have hlaB2c : ((eB1.reset σ).1).last_action = some (b.map fun x => clip x 0 1) := by
    rw [hlaB2]
    exact hlaB1
  obtain ⟨eA3, eB3, rA, rB, hstA2, hstB2, hdiff⟩ :=
    step_reward_diff ((eB1.reset σ).1) (a.map fun x => clip x 0 1)
      (b.map fun x => clip x 0 1) c hwfB2 hlenC2 hlaB2c hsafeB2
  have hexc2 : ((eA1.reset σ).1) =
      { ((eB1.reset σ).1) with last_action := some (a.map fun x => clip x 0 1) } := by
    rw [hexc, hlaA1]
  refine ⟨rA, rB, ?_, ?_, hdiff⟩
  · rw [hstA]
    show ((((eA1.reset σ).1).step c)).2 = .ok rA
    rw [hexc2, hstA2]
  · rw [hstB]
    show ((((eB1.reset σ).1).step c)).2 = .ok rB
    rw [hstB2]

/-- C10. `reset()` leaves `last_action` unchanged, so the jitter penalty of
the first post-reset step is computed against the final pre-reset action: two
single-server environments with the same seed stream, the same global draws
and the same post-reset action, whose pre-reset actions were 0.0 and 1.0
respectively, get different first-step rewards after reset. -/
theorem c10_reset_frame_effect :
    ∃ rA rB : StepResult,
      (((((DataCenterEnv.init
          ({ environment := { num_racks := 1, servers_per_rack := 1 } } : Config)
          (fun i => if i = 0 then 0.75 else 0) (fun _ => 45.0) 0).reset
          (fun i => if i = 0 then 0.75 else 0)).1.step [0.0]).1.reset
          (fun i => if i = 0 then 0.75 else 0)).1.step [0.0]).2 = .ok rA ∧
      (((((DataCenterEnv.init
          ({ environment := { num_racks := 1, servers_per_rack := 1 } } : Config)
          (fun i => if i = 0 then 0.75 else 0) (fun _ => 45.0) 0).reset
          (fun i => if i = 0 then 0.75 else 0)).1.step [1.0]).1.reset
          (fun i => if i = 0 then 0.75 else 0)).1.step [0.0]).2 = .ok rB ∧
      rA.reward ≠ rB.reward := by
  obtain ⟨rA, rB, hA, hB, hdiff⟩ := c10_general
    ({ environment := { num_racks := 1, servers_per_rack := 1 } } : Config)
    (fun i => if i = 0 then 0.75 else 0) (fun _ => 45.0) [0.0] [1.0] [0.0]
    (by norm_num [DataCenterEnv.init]) (by norm_num [DataCenterEnv.init])
    (by norm_num [DataCenterEnv.init]) (by norm_num [DataCenterEnv.init])
    (by
      intro j
      show max (22.0 : ℝ) (45.0 + 5.0) < 95.0
      rw [max_eq_right (by norm_num)]
      norm_num)
  refine ⟨rA, rB, hA, hB, ?_⟩
  intro hctr
  rw [hctr, sub_self] at hdiff
  simp only [List.map_cons, List.map_nil, List.zipWith_cons_cons,
    List.zipWith_nil_right] at hdiff
  rw [clip_eq_self 0.0 0 1 (by norm_num) (by norm_num),
    clip_eq_self 1.0 0 1 (by norm_num) (by norm_num)] at hdiff
  rw [show |(0.0 : ℝ) - 1.0| = 1.0 from by rw [abs_sub_comm, abs_of_nonneg] <;> norm_num,
    show |(0.0 : ℝ) - 0.0| = 0.0 from by rw [sub_self, abs_zero]; norm_num] at hdiff
  rw [show npMean [(1.0 : ℝ)] = 1.0 from by norm_num [npMean],
    show npMean [(0.0 : ℝ)] = 0.0 from by norm_num [npMean]] at hdiff
  norm_num at hdiff

end SCARI
